import Mathlib

/-!
Verification of the GPTMock upstream bridge against its design document.

The Python sources are shallowly embedded: dynamic JSON values become the
inductive `JVal`, dict reads become association-list lookups, and the
per-connection streaming translator becomes an explicit fold over the decoded
upstream event list.  Missing modules (those only imported by the sources in
scope) appear as explicit oracle parameters, each documented at its binder.
-/

/-- A JSON value as handled by the Python sources (`dict` insertion order is
kept as list order). -/
inductive JVal where
  | null : JVal
  | bool (b : Bool) : JVal
  | num (n : Int) : JVal
  | str (s : String) : JVal
  | arr (xs : List JVal) : JVal
  | obj (kvs : List (String × JVal)) : JVal
deriving Repr

mutual
/-- Structural equality test on JSON values. -/
def JVal.beq : JVal → JVal → Bool
  | .null, .null => true
  | .bool a, .bool b => a == b
  | .num a, .num b => a == b
  | .str a, .str b => a == b
  | .arr a, .arr b => JVal.beqList a b
  | .obj a, .obj b => JVal.beqKV a b
  | _, _ => false

/-- Elementwise `JVal.beq` on arrays. -/
def JVal.beqList : List JVal → List JVal → Bool
  | [], [] => true
  | x :: xs, y :: ys => JVal.beq x y && JVal.beqList xs ys
  | _, _ => false

/-- Entrywise `JVal.beq` on object entry lists. -/
def JVal.beqKV : List (String × JVal) → List (String × JVal) → Bool
  | [], [] => true
  | (k, v) :: xs, (k', v') :: ys => k == k' && JVal.beq v v' && JVal.beqKV xs ys
  | _, _ => false
end

mutual
theorem JVal.beq_iff : ∀ (a b : JVal), JVal.beq a b = true ↔ a = b
  | .null, b => by cases b <;> simp [JVal.beq]
  | .bool x, b => by cases b <;> simp [JVal.beq]
  | .num x, b => by cases b <;> simp [JVal.beq]
  | .str x, b => by cases b <;> simp [JVal.beq]
  | .arr xs, b => by
      cases b <;> simp [JVal.beq]
      exact JVal.beqList_iff xs _
  | .obj kvs, b => by
      cases b <;> simp [JVal.beq]
      exact JVal.beqKV_iff kvs _

theorem JVal.beqList_iff : ∀ (xs ys : List JVal), JVal.beqList xs ys = true ↔ xs = ys
  | [], [] => by simp [JVal.beqList]
  | [], _ :: _ => by simp [JVal.beqList]
  | _ :: _, [] => by simp [JVal.beqList]
  | x :: xs, y :: ys => by
      simp [JVal.beqList, JVal.beq_iff x y, JVal.beqList_iff xs ys]

theorem JVal.beqKV_iff : ∀ (xs ys : List (String × JVal)),
    JVal.beqKV xs ys = true ↔ xs = ys
  | [], [] => by simp [JVal.beqKV]
  | [], _ :: _ => by simp [JVal.beqKV]
  | _ :: _, [] => by simp [JVal.beqKV]
  | (k, v) :: xs, (k', v') :: ys => by
      simp [JVal.beqKV, JVal.beq_iff v v', JVal.beqKV_iff xs ys, Prod.ext_iff,
        and_assoc]
end

instance : DecidableEq JVal := fun a b =>
  decidable_of_iff (JVal.beq a b = true) (JVal.beq_iff a b)

/-- Python truthiness of a JSON value (`bool(x)`). -/
def JVal.truthy : JVal → Bool
  | .null => false
  | .bool b => b
  | .num n => n != 0
  | .str s => s ≠ ""
  | .arr xs => !xs.isEmpty
  | .obj kvs => !kvs.isEmpty

/-- `x.get(k)` on a dict: `some v` when the key is present (even with a `null`
value), `none` when the key is absent or the value is not a dict. -/
def JVal.get? : JVal → String → Option JVal
  | .obj kvs, k => kvs.lookup k
  | _, _ => none

/-- `x.get(k, d)`: dict lookup with a default for an absent key. -/
def JVal.getD (v : JVal) (k : String) (d : JVal) : JVal :=
  (v.get? k).getD d

/-- Is the value a dict (`isinstance(x, dict)`)? -/
def JVal.isObj : JVal → Bool
  | .obj _ => true
  | _ => false

/-- Is the value a string (`isinstance(x, str)`)? -/
def JVal.isStr : JVal → Bool
  | .str _ => true
  | _ => false

/-- `some s` when the value is a non-empty string, else `none` (the common
`isinstance(x, str) and x` guard). -/
def JVal.neStr? : JVal → Option String
  | .str s => if s = "" then none else some s
  | _ => none

/-- Python `a or b` specialised to JSON values. -/
def JVal.pyOr (a b : JVal) : JVal := if a.truthy then a else b

/-- `d[k] = v` on a dict encoded as a key-value list: replaces the first
occurrence in place, appends when absent (Python dict insertion order). -/
def kvSet : List (String × JVal) → String → JVal → List (String × JVal)
  | [], k, v => [(k, v)]
  | (k', v') :: rest, k, v =>
      if k' = k then (k, v) :: rest else (k', v') :: kvSet rest k v

/-- `d.setdefault(k, v)` restricted to its effect on the stored dict. -/
def kvSetDefault (kvs : List (String × JVal)) (k : String) (v : JVal) :
    List (String × JVal) :=
  match kvs.lookup k with
  | some _ => kvs
  | none => kvs ++ [(k, v)]

/-- `base.update(upd)` on dicts encoded as key-value lists. -/
def kvUpdate (base upd : List (String × JVal)) : List (String × JVal) :=
  upd.foldl (fun acc kv => kvSet acc kv.1 kv.2) base

/-- Keys the Python runtime can hash (a `dict`/`list` key raises `TypeError`). -/
def JVal.hashable : JVal → Bool
  | .null | .bool _ | .num _ | .str _ => true
  | _ => false

/-- Association lookup keyed by JSON values (used for the translator's
`ws_state`/`ws_index` dicts, whose keys come off the wire). -/
def jAssocGet : List (JVal × JVal) → JVal → Option JVal
  | [], _ => none
  | (k', v') :: rest, k => if k' = k then some v' else jAssocGet rest k

/-- Association update keyed by JSON values (insert-or-replace in place). -/
def jAssocSet : List (JVal × JVal) → JVal → JVal → List (JVal × JVal)
  | [], k, v => [(k, v)]
  | (k', v') :: rest, k, v =>
      if k' = k then (k, v) :: rest else (k', v') :: jAssocSet rest k v

/-- Lookup in the translator's `ws_index : dict[call-id, int]`. -/
def jIdxGet : List (JVal × Nat) → JVal → Option Nat
  | [], _ => none
  | (k', v') :: rest, k => if k' = k then some v' else jIdxGet rest k

/-! ### `json.dumps` (default separators, `ensure_ascii=True`) -/

/-- Hex digit for `\uXXXX` escapes. -/
def hexDigit (n : Nat) : Char :=
  if n < 10 then Char.ofNat (48 + n) else Char.ofNat (87 + n)

/-- Four-digit lowercase hex, as Python's `json` module prints it. -/
def hex4 (n : Nat) : List Char :=
  [hexDigit (n / 4096 % 16), hexDigit (n / 256 % 16),
   hexDigit (n / 16 % 16), hexDigit (n % 16)]

/-- Escape one character inside a JSON string literal the way
`json.dumps` (with its default `ensure_ascii=True`) does. -/
def jsonEscapeChar (c : Char) : List Char :=
  if c = '"' then ['\\', '"']
  else if c = '\\' then ['\\', '\\']
  else if c = '\n' then ['\\', 'n']
  else if c = '\r' then ['\\', 'r']
  else if c = '\t' then ['\\', 't']
  else if c = Char.ofNat 8 then ['\\', 'b']
  else if c = Char.ofNat 12 then ['\\', 'f']
  else if c.toNat < 32 ∨ c.toNat ≥ 127 then
    if c.toNat < 65536 then '\\' :: 'u' :: hex4 c.toNat
    else
      let v := c.toNat - 65536
      ('\\' :: 'u' :: hex4 (55296 + v / 1024)) ++ ('\\' :: 'u' :: hex4 (56320 + v % 1024))
  else [c]

/-- JSON string-literal body escaping. -/
def jsonEscape (s : String) : String :=
  ⟨s.data.flatMap jsonEscapeChar⟩

mutual
/-- `json.dumps(v)` with Python's default separators `", "` and `": "`. -/
def jvalDumps : JVal → String
  | .null => "null"
  | .bool true => "true"
  | .bool false => "false"
  | .num n => toString n
  | .str s => "\"" ++ jsonEscape s ++ "\""
  | .arr xs => "[" ++ jvalDumpsList xs ++ "]"
  | .obj kvs => "\x7b" ++ jvalDumpsObj kvs ++ "\x7d"

/-- Comma-joined serialisation of array elements. -/
def jvalDumpsList : List JVal → String
  | [] => ""
  | [x] => jvalDumps x
  | x :: rest => jvalDumps x ++ ", " ++ jvalDumpsList rest

/-- Comma-joined serialisation of object entries. -/
def jvalDumpsObj : List (String × JVal) → String
  | [] => ""
  | [(k, v)] => "\"" ++ jsonEscape k ++ "\": " ++ jvalDumps v
  | (k, v) :: rest =>
      "\"" ++ jsonEscape k ++ "\": " ++ jvalDumps v ++ ", " ++ jvalDumpsObj rest
end

/-! ### Python string primitives (structural, so the kernel can evaluate) -/

/-- The ASCII fragment of Python's `str.strip()` whitespace set. -/
def pySpace (c : Char) : Bool :=
  c = ' ' ∨ c = '\t' ∨ c = '\n' ∨ c = '\r' ∨ c = Char.ofNat 11 ∨ c = Char.ofNat 12

/-- `s.strip()`. -/
def pyStrip (s : String) : String :=
  ⟨((s.data.dropWhile pySpace).reverse.dropWhile pySpace).reverse⟩

/-- `s.lower()` (ASCII fragment). -/
def pyLower (s : String) : String :=
  ⟨s.data.map fun c =>
    if 'A' ≤ c ∧ c ≤ 'Z' then Char.ofNat (c.toNat + 32) else c⟩

/-- `s.endswith(p)`. -/
def pyEndsWith (s p : String) : Bool := p.data.isSuffixOf s.data

/-- `s.startswith(p)`. -/
def pyStartsWith (s p : String) : Bool := p.data.isPrefixOf s.data

/-- `s[:-n]` for `0 < n ≤ len(s)`. -/
def pyDropRight (s : String) (n : Nat) : String :=
  ⟨s.data.take (s.data.length - n)⟩

/-! ### `chatmock/services/model_registry.py` -/

/-- `name.split(":", 1)[0]`. -/
def pySplitColonHead (s : String) : String :=
  ⟨s.data.takeWhile (fun c => c ≠ ':')⟩

/-- One pass of the effort-suffix stripping loop body in
`normalize_model_name` for a fixed separator: the first effort token (in
source order) whose `sep + effort` suffix matches the lowercased base is
stripped. -/
def stripEffortOnce (sep : String) (base : String) : String :=
  let lowered := pyLower base
  match ["minimal", "low", "medium", "high", "xhigh"].find?
      (fun e => pyEndsWith lowered (sep ++ e)) with
  | some e => pyDropRight base (sep ++ e).length
  | none => base

/-- The static alias table in `normalize_model_name`. -/
def modelNameMapping : List (String × String) :=
  [("gpt5", "gpt-5"), ("gpt-5-latest", "gpt-5"), ("gpt-5", "gpt-5"),
   ("gpt-5.1", "gpt-5.1"), ("gpt5.2", "gpt-5.2"), ("gpt-5.2", "gpt-5.2"),
   ("gpt-5.2-latest", "gpt-5.2"), ("gpt5.2-codex", "gpt-5.2-codex"),
   ("gpt-5.2-codex", "gpt-5.2-codex"), ("gpt-5.2-codex-latest", "gpt-5.2-codex"),
   ("gpt5-codex", "gpt-5-codex"), ("gpt-5-codex", "gpt-5-codex"),
   ("gpt-5-codex-latest", "gpt-5-codex"), ("gpt-5.1-codex", "gpt-5.1-codex"),
   ("gpt-5.1-codex-max", "gpt-5.1-codex-max"), ("codex", "codex-mini-latest"),
   ("codex-mini", "codex-mini-latest"), ("codex-mini-latest", "codex-mini-latest"),
   ("gpt-5.1-codex-mini", "gpt-5.1-codex-mini")]

/-- `normalize_model_name(name, debug_model)` from
`chatmock/services/model_registry.py` (identical copy in
`chatmock/infra/upstream.py`).  `name` is the raw `payload.get("model")`
value; `debug_model` is the typed `Settings.debug_model`. -/
def normalize_model_name (name : JVal) (debugModel : Option String) : String :=
  match debugModel with
  | some d =>
      if pyStrip d ≠ "" then pyStrip d
      else normalizeModelBase name
  | none => normalizeModelBase name
where
  /-- The body after the debug-model override check. -/
  normalizeModelBase (name : JVal) : String :=
    match name with
    | .str s =>
        if pyStrip s = "" then "gpt-5"
        else
          let base := pyStrip (pySplitColonHead s)
          let base := stripEffortOnce "_" (stripEffortOnce "-" base)
          (modelNameMapping.lookup base).getD base
    | _ => "gpt-5"

/-- `get_instructions_for_model` from `chatmock/services/model_registry.py`. -/
def get_instructions_for_model (model : String) (baseInstructions : String)
    (gpt5CodexInstructions : Option String) : String :=
  if pyStartsWith model "gpt-5-codex" ∨ pyStartsWith model "gpt-5.1-codex"
      ∨ pyStartsWith model "gpt-5.2-codex" then
    match gpt5CodexInstructions with
    | some c => if pyStrip c ≠ "" then c else baseInstructions
    | none => baseInstructions
  else baseInstructions

/-! ### `chatmock/services/responses.py` и tool-choice coercion -/

/-- `_safe_tool_choice` from `chatmock/services/responses.py`. -/
def safe_tool_choice (value : JVal) : JVal :=
  if value = .str "auto" ∨ value = .str "none" then value
  else match value with
  | .obj kvs => .obj kvs
  | _ => .str "auto"

/-- The inline tool-choice coercion in the upstream payload construction:
`tool_choice if tool_choice in ("auto", "none") or isinstance(tool_choice, dict)
else "auto"` (`chatmock/services/chat.py` line 59, `chatmock/infra/upstream.py`
line 102). -/
def upstreamToolChoice (toolChoice : JVal) : JVal :=
  if toolChoice = .str "auto" ∨ toolChoice = .str "none" ∨ toolChoice.isObj
  then toolChoice else .str "auto"

/-- The canonical-request shape invariant for `tool_choice`: the string
`"auto"`, the string `"none"`, or a structured object. -/
def toolChoiceShapeOK (v : JVal) : Bool :=
  v = .str "auto" ∨ v = .str "none" ∨ v.isObj

/-! ### `gptmock/infra/auth.py` — token lifecycle

`parse_jwt_claims` (base64url + JSON decoding of the middle JWT segment) and
`_parse_iso8601` are modelled as oracle parameters `parseJwt : String → Option
JVal` (`none` = undecodable) and `parseIso : String → Option Int` (`none` =
unparseable; instants are UTC seconds as `Int`).  `datetime.now` is the
parameter `now`. -/

/-- The expiry claim of an access token as lines 140-142 of
`_should_refresh_access_token` read it: `claims = parse_jwt_claims(tok) or
{}`, then `claims.get("exp")` when the claims are a dict, kept when
`isinstance(exp, (int, float))`.  A Python `bool` passes that check as the
integer `1`/`0` (`float(True) == 1.0`). -/
def accessTokenExp (parseJwt : String → Option JVal) (s : String) : Option Int :=
  let claims := JVal.pyOr ((parseJwt s).getD .null) (.obj [])
  match (if claims.isObj then claims.getD "exp" .null else .null) with
  | .num e => some e
  | .bool b => some (if b then 1 else 0)
  | _ => none

/-- Whether `datetime.fromtimestamp(float(e), timezone.utc)` succeeds for a
whole number of epoch seconds `e`: the instant must fall inside `datetime`'s
year range 1..9999, i.e. `-62135596800 ≤ e ≤ 253402300799`
(`0001-01-01T00:00:00Z` .. `9999-12-31T23:59:59Z`).  Outside that range the
call raises, the error is caught at auth.py:144-147, and `expiry` stays
`None`. -/
def pyFromTimestampOk (e : Int) : Bool :=
  decide (-62135596800 ≤ e) && decide (e ≤ 253402300799)

/-- `_should_refresh_access_token(access_token, last_refresh)` from
`gptmock/infra/auth.py`.  A missing/empty/non-string token refreshes; a
numeric expiry that `datetime.fromtimestamp` can represent compares against
`now + 5 min`; otherwise (no numeric claim, or the guarded `fromtimestamp`
raised) a parseable `last_refresh` string compares against `now - 55 min`;
otherwise `False`. -/
def should_refresh_access_token (parseJwt : String → Option JVal)
    (parseIso : String → Option Int) (now : Int)
    (accessToken lastRefresh : JVal) : Bool :=
  let fallback : Bool :=
    match lastRefresh with
    | .str lr =>
        match parseIso lr with
        | some refreshedAt => decide (refreshedAt ≤ now - 55 * 60)
        | none => false
    | _ => false
  match accessToken with
  | .str s =>
      if s = "" then true
      else
        match accessTokenExp parseJwt s with
        | some e =>
            if pyFromTimestampOk e then decide (e ≤ now + 5 * 60)
            else fallback
        | none => fallback
  | _ => true

/-- `_derive_account_id(id_token)` from `gptmock/infra/auth.py`: decode the
identity token's claims and read
`claims["https://api.openai.com/auth"]["chatgpt_account_id"]` when that chain
is well-typed and non-empty. -/
def derive_account_id (parseJwt : String → Option JVal) (idToken : JVal) :
    Option String :=
  match idToken with
  | .str s =>
      if s = "" then none
      else
        let claims := JVal.pyOr ((parseJwt s).getD .null) (.obj [])
        let authClaims :=
          if claims.isObj then claims.getD "https://api.openai.com/auth" .null
          else .null
        match authClaims with
        | .obj kvs => ((JVal.obj kvs).getD "chatgpt_account_id" .null).neStr?
        | _ => none
  | _ => none

/-- Outcome of the OAuth token-endpoint POST issued by
`_refresh_chatgpt_tokens`: `none` for a network error (`httpx.RequestError`),
otherwise the status code and the decoded JSON body (`none` body = the
`resp.json()` call failed). -/
structure TokenEndpointResp where
  status : Nat
  body : Option JVal

/-- The record `_refresh_chatgpt_tokens` returns on success. -/
structure RefreshedTokens where
  idToken : String
  accessToken : String
  refreshToken : String
  accountId : Option String
deriving Repr, DecidableEq

/-- `_refresh_chatgpt_tokens(refresh_token, client_id)` from
`gptmock/infra/auth.py`, with the HTTP exchange abstracted into `httpResult`.
Any failure (network, status ≥ 400, undecodable body, missing/non-string
`id_token` or `access_token`) yields `none`; otherwise the rotated tokens and
the account id derived from the fresh identity token. -/
def refresh_chatgpt_tokens (parseJwt : String → Option JVal)
    (httpResult : Option TokenEndpointResp) (refreshToken : String) :
    Option RefreshedTokens :=
  match httpResult with
  | none => none
  | some resp =>
      if resp.status ≥ 400 then none
      else
        match resp.body with
        | none => none
        | some data =>
            let newRefresh :=
              JVal.pyOr (data.getD "refresh_token" .null) (.str refreshToken)
            match data.getD "id_token" .null, data.getD "access_token" .null with
            | .str idTok, .str accTok =>
                let nr := match newRefresh.neStr? with
                  | some s => s
                  | none => refreshToken
                some { idToken := idTok, accessToken := accTok,
                       refreshToken := nr,
                       accountId := derive_account_id parseJwt (.str idTok) }
            | _, _ => none

/-- `auth.get("tokens") if isinstance(auth.get("tokens"), dict) else {}`. -/
def authTokens (auth : JVal) : JVal :=
  match auth.get? "tokens" with
  | some (.obj kvs) => .obj kvs
  | _ => .obj []

/-- One stored token field, as `load_chatgpt_tokens` reads it. -/
def storedField (auth : JVal) (k : String) : JVal :=
  (authTokens auth).getD k .null

/-- The guard chain of `load_chatgpt_tokens` deciding whether the refresh POST
is issued: `ensure_fresh`, a non-empty string refresh token (the
`CLIENT_ID_DEFAULT` conjunct is a constant non-empty string, hence always
true), and `needs_refresh or not access_token`. -/
def loadRefreshAttempted (parseJwt : String → Option JVal)
    (parseIso : String → Option Int) (now : Int) (auth : JVal)
    (ensureFresh : Bool) : Bool :=
  match storedField auth "refresh_token" with
  | .str rt =>
      ensureFresh && rt ≠ "" &&
        (should_refresh_access_token parseJwt parseIso now
            (storedField auth "access_token") (auth.getD "last_refresh" .null)
          || (storedField auth "access_token").neStr?.isNone)
  | _ => false

/-- The refresh outcome `load_chatgpt_tokens` observes: the rotated tokens when
the guard chain issued the POST and `_refresh_chatgpt_tokens` succeeded. -/
def loadRefreshed (parseJwt : String → Option JVal)
    (parseIso : String → Option Int) (now : Int) (auth : JVal)
    (tokenEndpoint : Option TokenEndpointResp) (ensureFresh : Bool) :
    Option RefreshedTokens :=
  if loadRefreshAttempted parseJwt parseIso now auth ensureFresh then
    match storedField auth "refresh_token" with
    | .str rt => refresh_chatgpt_tokens parseJwt tokenEndpoint rt
    | _ => none
  else none

/-- The identity-token value in scope after the (possible) refresh:
`id_token = refreshed.get("id_token") or id_token`. -/
def loadFinalIdToken (parseJwt : String → Option JVal)
    (parseIso : String → Option Int) (now : Int) (auth : JVal)
    (tokenEndpoint : Option TokenEndpointResp) (ensureFresh : Bool) : JVal :=
  match loadRefreshed parseJwt parseIso now auth tokenEndpoint ensureFresh with
  | some r => JVal.pyOr (.str r.idToken) (storedField auth "id_token")
  | none => storedField auth "id_token"

/-- `load_chatgpt_tokens(ensure_fresh)` from `gptmock/infra/auth.py`, returning
the `(access_token, account_id, id_token)` triple.  `authFile` is the
`read_auth_file()` result.  On a successful refresh each field is updated with
`refreshed.get(field) or field`; the subsequent persistence of the refreshed
record does not change the returned triple and is not modelled.  Finally a
missing/empty account id falls back to the id-token claims, and all three
results are normalised to non-empty strings. -/
def load_chatgpt_tokens (parseJwt : String → Option JVal)
    (parseIso : String → Option Int) (now : Int) (authFile : Option JVal)
    (tokenEndpoint : Option TokenEndpointResp) (ensureFresh : Bool) :
    Option String × Option String × Option String :=
  match authFile with
  | some auth =>
      if auth.isObj then
        let accessToken := storedField auth "access_token"
        let accountId := storedField auth "account_id"
        let idToken := storedField auth "id_token"
        let next :=
          match loadRefreshed parseJwt parseIso now auth tokenEndpoint ensureFresh with
          | some r =>
              (JVal.pyOr (.str r.accessToken) accessToken,
               (match r.accountId with
                | some a => JVal.pyOr (.str a) accountId
                | none => accountId),
               JVal.pyOr (.str r.idToken) idToken)
          | none => (accessToken, accountId, idToken)
        let finalAccount : Option String :=
          match next.2.1.neStr? with
          | some a => some a
          | none => derive_account_id parseJwt next.2.2
        (next.1.neStr?, finalAccount, next.2.2.neStr?)
      else (none, none, none)
  | none => (none, none, none)

/-! ### Claims C7, C8, C9, C10 -/

theorem JVal.neStr?_ne_empty {v : JVal} {a : String} (h : v.neStr? = some a) :
    a ≠ "" := by
  cases v <;> simp [JVal.neStr?] at h
  next s =>
    rcases h with ⟨hs, rfl⟩
    exact hs

theorem derive_account_id_ne_empty (pj : String → Option JVal) (v : JVal)
    (a : String) (h : derive_account_id pj v = some a) : a ≠ "" := by
  unfold derive_account_id at h
  split at h
  · split at h
    · exact absurd h (by simp)
    · simp only [] at h
      split at h
      · exact JVal.neStr?_ne_empty h
      · exact absurd h (by simp)
  · exact absurd h (by simp)

theorem refresh_accountId_ne_empty (pj : String → Option JVal)
    (ep : Option TokenEndpointResp) (rt : String) (r : RefreshedTokens)
    (a : String) (h : refresh_chatgpt_tokens pj ep rt = some r)
    (ha : r.accountId = some a) : a ≠ "" := by
  unfold refresh_chatgpt_tokens at h
  split at h
  · exact absurd h (by simp)
  · split at h
    · exact absurd h (by simp)
    · split at h
      · exact absurd h (by simp)
      · split at h
        · next idTok accTok heq h2 =>
            rw [← Option.some_inj.mp h] at ha
            exact derive_account_id_ne_empty pj (.str idTok) a ha
        · exact absurd h (by simp)

/-- C7.  The refresh-needed decision: a missing or empty access token always
refreshes; with a decodable numeric expiry claim whose instant
`datetime.fromtimestamp` can represent, the token is stale exactly when it
expires within the 5-minute margin; otherwise — no decodable numeric claim, or
a numeric claim outside `datetime`'s year-1..9999 range whose guarded
conversion raised (auth.py:144-147) — the fallback is stale exactly when **at
least** 55 minutes have passed since a parseable `last_refresh` instant (and
never stale when that instant is missing or unparseable).  The claim's "more
than 55 minutes" is corrected to "at least 55 minutes": the source comparison
`refreshed_at <= now - 55min` is inclusive. -/
theorem C7_refresh_decision (pj : String → Option JVal)
    (pi : String → Option Int) (now : Int) (tok lr : JVal) :
    (tok.isStr = false → should_refresh_access_token pj pi now tok lr = true) ∧
    (should_refresh_access_token pj pi now (.str "") lr = true) ∧
    (∀ s e, s ≠ "" → accessTokenExp pj s = some e → pyFromTimestampOk e = true →
      should_refresh_access_token pj pi now (.str s) lr =
        decide (e ≤ now + 5 * 60)) ∧
    (∀ s, s ≠ "" →
      (accessTokenExp pj s = none ∨
        (∃ e, accessTokenExp pj s = some e ∧ pyFromTimestampOk e = false)) →
      should_refresh_access_token pj pi now (.str s) lr =
        (match lr with
         | .str l =>
             (match pi l with
              | some refreshedAt => decide (refreshedAt ≤ now - 55 * 60)
              | none => false)
         | _ => false)) := by
  refine ⟨?_, ?_, ?_, ?_⟩
  · intro h
    cases tok <;> simp_all [should_refresh_access_token, JVal.isStr]
  · simp [should_refresh_access_token]
  · intro s e hs he hok
    simp [should_refresh_access_token, hs, he, hok]
  · intro s hs he
    rcases he with he | ⟨e, he, hbad⟩
    · simp [should_refresh_access_token, hs, he]
    · simp [should_refresh_access_token, hs, he, hbad]

/-- C7 witness: the amended decision rule at concrete inputs, including an
in-range expiry claim and an out-of-range one (`exp = 3·10^11`, beyond year
9999) that falls to the last-refresh rule. -/
theorem C7_refresh_decision_witness :
    should_refresh_access_token (fun _ => none) (fun _ => some 0) 0 (.num 1)
        .null = true
    ∧ should_refresh_access_token (fun _ => some (.obj [("exp", .num 100)]))
        (fun _ => none) 0 (.str "t") .null = decide ((100 : Int) ≤ 0 + 5 * 60)
    ∧ should_refresh_access_token (fun _ => none) (fun _ => some 0) 10000
        (.str "t") (.str "lr") = decide ((0 : Int) ≤ 10000 - 55 * 60)
    ∧ should_refresh_access_token
        (fun _ => some (.obj [("exp", .num 300000000000)])) (fun _ => some 0)
        10000 (.str "t") (.str "lr") = decide ((0 : Int) ≤ 10000 - 55 * 60) := by
  refine ⟨?_, ?_, ?_, ?_⟩
  · exact (C7_refresh_decision (fun _ => none) (fun _ => some 0) 0 (.num 1)
      .null).1 (by decide)
  · exact ((C7_refresh_decision (fun _ => some (.obj [("exp", .num 100)]))
      (fun _ => none) 0 (.str "t") .null).2.2.1) "t" 100 (by decide) (by decide)
      (by decide)
  · exact ((C7_refresh_decision (fun _ => none) (fun _ => some 0) 10000
      (.str "t") (.str "lr")).2.2.2) "t" (by decide) (Or.inl (by decide))
  · exact ((C7_refresh_decision
      (fun _ => some (.obj [("exp", .num 300000000000)])) (fun _ => some 0)
      10000 (.str "t") (.str "lr")).2.2.2) "t" (by decide)
      (Or.inr ⟨300000000000, by decide, by decide⟩)

/-- C7 counterexample to the claim as stated: with the last refresh exactly 55
minutes ago (not *more than* 55), a token with no decodable expiry is already
treated as stale. -/
theorem C7_counterexample :
    should_refresh_access_token (fun _ => none) (fun _ => some 0) 3300
        (.str "tok") (.str "t") = true
    ∧ ¬ ((3300 : Int) - 0 > 55 * 60) := ⟨by decide, by decide⟩

/-- C8.  Account-id resolution order, corrected: when a refresh was issued and
succeeded, the account id embedded in the fresh refresh response takes
precedence over the persisted one (`account_id = refreshed.get("account_id")
or account_id`); the persisted value is used otherwise, and the id decoded
from the (possibly rotated) identity token's claims is used only when both are
absent. -/
theorem C8_account_id_priority (pj : String → Option JVal)
    (pi : String → Option Int) (now : Int) (auth : JVal)
    (ep : Option TokenEndpointResp) (ef : Bool) (h : auth.isObj = true) :
    (load_chatgpt_tokens pj pi now (some auth) ep ef).2.1 =
      (((loadRefreshed pj pi now auth ep ef).bind RefreshedTokens.accountId).or
          (storedField auth "account_id").neStr?).or
        (derive_account_id pj (loadFinalIdToken pj pi now auth ep ef)) := by
  unfold load_chatgpt_tokens loadFinalIdToken
  cases hr : loadRefreshed pj pi now auth ep ef with
  | none =>
      simp only [hr, h, if_true]
      cases hacc : (storedField auth "account_id").neStr? with
      | none => simp [hacc]
      | some a => simp [hacc]
  | some r =>
      cases har : r.accountId with
      | none =>
          simp only [hr, har, h, if_true]
          cases hacc : (storedField auth "account_id").neStr? with
          | none => simp [hacc, har]
          | some a => simp [hacc, har]
      | some a =>
          have ha : a ≠ "" := by
            have hthis := hr
            unfold loadRefreshed at hthis
            split at hthis
            · split at hthis
              · exact refresh_accountId_ne_empty pj ep _ r a hthis har
              · exact absurd hthis (by simp)
            · exact absurd hthis (by simp)
          simp only [hr, har, h, if_true]
          simp [JVal.pyOr, JVal.truthy, ha, JVal.neStr?, har]

/-- C8 witness: the corrected priority at a concrete credential record where a
refresh succeeds and rotates the identity token. -/
theorem C8_account_id_priority_witness :
    (load_chatgpt_tokens
        (fun t => if t = "idB"
          then some (.obj [("https://api.openai.com/auth",
            .obj [("chatgpt_account_id", .str "B")])])
          else none)
        (fun _ => some 0) 10000
        (some (.obj [("tokens", .obj [("access_token", .str "atk"),
          ("account_id", .str "A"), ("id_token", .str "idA"),
          ("refresh_token", .str "rt")]), ("last_refresh", .str "t0")]))
        (some ⟨200, some (.obj [("id_token", .str "idB"),
          ("access_token", .str "atk2")])⟩) true).2.1 =
      (((loadRefreshed
          (fun t => if t = "idB"
            then some (.obj [("https://api.openai.com/auth",
              .obj [("chatgpt_account_id", .str "B")])])
            else none)
          (fun _ => some 0) 10000
          (.obj [("tokens", .obj [("access_token", .str "atk"),
            ("account_id", .str "A"), ("id_token", .str "idA"),
            ("refresh_token", .str "rt")]), ("last_refresh", .str "t0")])
          (some ⟨200, some (.obj [("id_token", .str "idB"),
            ("access_token", .str "atk2")])⟩) true).bind
            RefreshedTokens.accountId).or
          (storedField (.obj [("tokens", .obj [("access_token", .str "atk"),
            ("account_id", .str "A"), ("id_token", .str "idA"),
            ("refresh_token", .str "rt")]), ("last_refresh", .str "t0")])
            "account_id").neStr?).or
        (derive_account_id
          (fun t => if t = "idB"
            then some (.obj [("https://api.openai.com/auth",
              .obj [("chatgpt_account_id", .str "B")])])
            else none)
          (loadFinalIdToken
            (fun t => if t = "idB"
              then some (.obj [("https://api.openai.com/auth",
                .obj [("chatgpt_account_id", .str "B")])])
              else none)
            (fun _ => some 0) 10000
            (.obj [("tokens", .obj [("access_token", .str "atk"),
              ("account_id", .str "A"), ("id_token", .str "idA"),
              ("refresh_token", .str "rt")]), ("last_refresh", .str "t0")])
            (some ⟨200, some (.obj [("id_token", .str "idB"),
              ("access_token", .str "atk2")])⟩) true)) :=
  C8_account_id_priority _ _ 10000 _ _ true (by decide)

/-- C8 counterexample to the claim as stated: the persisted account id is
`"A"`, yet after a successful refresh whose rotated identity token decodes to
account `"B"`, the loaded account id is `"B"`, not the persisted `"A"`. -/
theorem C8_counterexample :
    (load_chatgpt_tokens
        (fun t => if t = "idB"
          then some (.obj [("https://api.openai.com/auth",
            .obj [("chatgpt_account_id", .str "B")])])
          else none)
        (fun _ => some 0) 10000
        (some (.obj [("tokens", .obj [("access_token", .str "atk"),
          ("account_id", .str "A"), ("id_token", .str "idA"),
          ("refresh_token", .str "rt")]), ("last_refresh", .str "t0")]))
        (some ⟨200, some (.obj [("id_token", .str "idB"),
          ("access_token", .str "atk2")])⟩) true).2.1 = some "B"
    ∧ (some "B" : Option String) ≠ some "A" := ⟨by decide, by decide⟩

/-- C9.  The tool-choice placed in the canonical upstream request equals the
client value exactly when that value is `"auto"`, `"none"`, or a structured
object, and is silently coerced to `"auto"` in every other case; the
responses-pipeline helper `_safe_tool_choice` computes the same coercion, and
the coerced value always satisfies the canonical shape invariant. -/
theorem C9_tool_choice_invariant (v : JVal) :
    upstreamToolChoice v =
      (if v = .str "auto" ∨ v = .str "none" ∨ v.isObj then v else .str "auto")
    ∧ safe_tool_choice v = upstreamToolChoice v
    ∧ toolChoiceShapeOK (upstreamToolChoice v) = true := by
  refine ⟨rfl, ?_, ?_⟩
  · unfold safe_tool_choice upstreamToolChoice
    split
    · next hv => rcases hv with rfl | rfl <;> simp
    · next hv => cases v <;> simp_all [JVal.isObj]
  · unfold upstreamToolChoice toolChoiceShapeOK
    split
    · next hv => simpa using hv
    · simp

/-- C10.  `normalize_model_name` is total; a set non-blank debug-model
override is returned stripped regardless of the requested name, and a `null`,
non-string or whitespace-only requested name resolves to `"gpt-5"` when no
override is set. -/
theorem C10_normalize_model_name_defaults (name : JVal)
    (debugModel : Option String) :
    (∀ d, debugModel = some d → pyStrip d ≠ "" →
      normalize_model_name name debugModel = pyStrip d) ∧
    ((debugModel = none ∨ ∃ d, debugModel = some d ∧ pyStrip d = "") →
      (name.isStr = false ∨ ∃ s, name = .str s ∧ pyStrip s = "") →
      normalize_model_name name debugModel = "gpt-5") := by
  constructor
  · rintro d rfl hd
    simp [normalize_model_name, hd]
  · rintro hdm hname
    have hbase : normalize_model_name.normalizeModelBase name = "gpt-5" := by
      rcases hname with hns | ⟨s, rfl, hs⟩
      · cases name <;> simp_all [normalize_model_name.normalizeModelBase,
          JVal.isStr]
      · simp [normalize_model_name.normalizeModelBase, hs]
    rcases hdm with rfl | ⟨d, rfl, hd⟩
    · simpa [normalize_model_name] using hbase
    · simpa [normalize_model_name, hd] using hbase

/-- C10 witness: override wins and the defaults apply at concrete inputs. -/
theorem C10_normalize_model_name_witness :
    normalize_model_name (.str "gpt-5.2-codex-high") (some " dbg ") = "dbg"
    ∧ normalize_model_name (.num 3) none = "gpt-5"
    ∧ normalize_model_name (.str "   ") none = "gpt-5" := by
  refine ⟨?_, ?_, ?_⟩
  · exact (C10_normalize_model_name_defaults (.str "gpt-5.2-codex-high")
      (some " dbg ")).1 " dbg " rfl (by decide)
  · exact (C10_normalize_model_name_defaults (.num 3) none).2 (Or.inl rfl)
      (Or.inl (by decide))
  · exact (C10_normalize_model_name_defaults (.str "   ") none).2 (Or.inl rfl)
      (Or.inr ⟨"   ", rfl, by decide⟩)

/-! ### `chatmock/services/chat.py`, step 2 — system-message relocation -/

/-- The predicate of the `next(...)` generator at line 158:
`isinstance(m, dict) and m.get("role") == "system"`. -/
def isSystemMsg (m : JVal) : Bool :=
  m.isObj && (m.getD "role" .null = .str "system")

/-- `next((i for i, m in enumerate(messages) if ...), None)`: index of the
first system-role message. -/
def firstSystemIdx : List JVal → Option Nat
  | [] => none
  | m :: rest =>
      if isSystemMsg m then some 0 else (firstSystemIdx rest).map (· + 1)

/-- `messages.pop(i)`: the list with the element at index `i` removed. -/
def popAt : List JVal → Nat → List JVal
  | [], _ => []
  | _ :: rest, 0 => rest
  | m :: rest, n + 1 => m :: popAt rest n

/-- `sys_msg.get("content") if isinstance(sys_msg, dict) else ""`. -/
def sysMsgContent (m : JVal) : JVal :=
  match m with
  | .obj kvs => (JVal.obj kvs).getD "content" .null
  | _ => .str ""

/-- The replacement head message `{"role": "user", "content": content}`. -/
def userFromSystem (m : JVal) : JVal :=
  .obj [("role", .str "user"), ("content", sysMsgContent m)]

/-- Lines 157-162 of `process_chat_completion`
(`chatmock/services/chat.py`): the first system-role message is popped and a
user-role copy of its content is inserted at the front. -/
def relocateSystemMessages (messages : List JVal) : List JVal :=
  match firstSystemIdx messages with
  | some i => userFromSystem (messages.getD i .null) :: popAt messages i
  | none => messages

theorem firstSystemIdx_append (pre : List JVal) (s : JVal) (post : List JVal)
    (hpre : ∀ m ∈ pre, isSystemMsg m = false) (hs : isSystemMsg s = true) :
    firstSystemIdx (pre ++ s :: post) = some pre.length := by
  induction pre with
  | nil => simp [firstSystemIdx, hs]
  | cons a pre ih =>
      have ha := hpre a (by simp)
      have h' := ih (fun m hm => hpre m (by simp [hm]))
      simp [firstSystemIdx, ha, h']

theorem popAt_append (pre : List JVal) (s : JVal) (post : List JVal) :
    popAt (pre ++ s :: post) pre.length = pre ++ post := by
  induction pre with
  | nil => simp [popAt]
  | cons a pre ih => simpa [popAt] using ih

theorem getD_append_length (pre : List JVal) (s : JVal) (post : List JVal) :
    (pre ++ s :: post).getD pre.length .null = s := by
  induction pre with
  | nil => simp
  | cons a pre ih => simpa using ih

theorem firstSystemIdx_none (msgs : List JVal)
    (h : ∀ m ∈ msgs, isSystemMsg m = false) : firstSystemIdx msgs = none := by
  induction msgs with
  | nil => rfl
  | cons a rest ih =>
      have ha := h a (by simp)
      have h' := ih (fun m hm => h m (by simp [hm]))
      simp [firstSystemIdx, ha, h']

/-- C5, corrected.  Only the *first* system-role message is relocated: it is
removed and a user-role message with the same content is inserted at the
front, every other message (including any later system-role message) keeping
its relative order; a list with no system-role message is unchanged, so
when the list holds at most one system-role message none remains. -/
theorem C5_system_relocation (pre : List JVal) (s : JVal) (post : List JVal)
    (hpre : ∀ m ∈ pre, isSystemMsg m = false) (hs : isSystemMsg s = true) :
    relocateSystemMessages (pre ++ s :: post) =
      userFromSystem s :: (pre ++ post)
    ∧ (∀ msgs, (∀ m ∈ msgs, isSystemMsg m = false) →
        relocateSystemMessages msgs = msgs)
    ∧ ((∀ m ∈ post, isSystemMsg m = false) →
        ∀ m ∈ relocateSystemMessages (pre ++ s :: post), isSystemMsg m = false) := by
  have hmain : relocateSystemMessages (pre ++ s :: post) =
      userFromSystem s :: (pre ++ post) := by
    unfold relocateSystemMessages
    rw [firstSystemIdx_append pre s post hpre hs]
    simp only [popAt_append, getD_append_length]
  refine ⟨hmain, ?_, ?_⟩
  · intro msgs hnone
    unfold relocateSystemMessages
    rw [firstSystemIdx_none msgs hnone]
  · intro hpost m hm
    rw [hmain] at hm
    rcases List.mem_cons.mp hm with rfl | hm
    · simp [userFromSystem, isSystemMsg, JVal.isObj, JVal.getD, JVal.get?]
    · rcases List.mem_append.mp hm with h | h
      · exact hpre m h
      · exact hpost m h

/-- C5 witness: the corrected relocation on a concrete three-message list. -/
theorem C5_system_relocation_witness :
    relocateSystemMessages
        [JVal.obj [("role", .str "user"), ("content", .str "u1")],
         JVal.obj [("role", .str "system"), ("content", .str "sys")],
         JVal.obj [("role", .str "user"), ("content", .str "u2")]] =
      JVal.obj [("role", .str "user"), ("content", .str "sys")] ::
        [JVal.obj [("role", .str "user"), ("content", .str "u1")],
         JVal.obj [("role", .str "user"), ("content", .str "u2")]] :=
  (C5_system_relocation
    [JVal.obj [("role", .str "user"), ("content", .str "u1")]]
    (JVal.obj [("role", .str "system"), ("content", .str "sys")])
    [JVal.obj [("role", .str "user"), ("content", .str "u2")]]
    (by decide) (by decide)).1

/-- C5 counterexample to the claim as stated: with two system-role messages
only the first is relocated — the second keeps the system role, so the
normalised list still contains a system-role message. -/
theorem C5_counterexample :
    relocateSystemMessages
        [JVal.obj [("role", .str "system"), ("content", .str "a")],
         JVal.obj [("role", .str "system"), ("content", .str "b")]] =
      [JVal.obj [("role", .str "user"), ("content", .str "a")],
       JVal.obj [("role", .str "system"), ("content", .str "b")]]
    ∧ ([JVal.obj [("role", .str "user"), ("content", .str "a")],
        JVal.obj [("role", .str "system"), ("content", .str "b")]].any
          isSystemMsg) = true := ⟨by decide, by decide⟩

/-! ### `gptmock/infra/sse.py` — the streaming chat translator

The translator is embedded as a fold over the decoded upstream event list
(one `JVal` per `data:` line; an upstream `[DONE]` line or socket close simply
ends the list).  Each emitted chunk becomes one `Frame`; the constant
`id`/`model`/`created` envelope fields of every chunk are not repeated in the
frames.  `json.loads` applied to pre-encoded argument strings is the oracle
parameter `jsonLoads`. -/

/-- Does `needle` occur as a contiguous run of `haystack`? -/
def charListInfix (needle : List Char) : List Char → Bool
  | [] => needle.isEmpty
  | c :: rest => needle.isPrefixOf (c :: rest) || charListInfix needle rest

/-- Python `needle in haystack` on strings. -/
def strContains (haystack needle : String) : Bool :=
  charListInfix needle.data haystack.data

/-- Dict entries of an object value (empty for non-dicts). -/
def objEntries : JVal → List (String × JVal)
  | .obj kvs => kvs
  | _ => []

/-- `base.update(upd)` lifted to `JVal` (identity on non-dicts). -/
def objUpdate (base : JVal) (upd : List (String × JVal)) : JVal :=
  match base with
  | .obj kvs => .obj (kvUpdate kvs upd)
  | v => v

/-- `d[k] = v` lifted to `JVal`. -/
def objSet (base : JVal) (k : String) (v : JVal) : JVal :=
  match base with
  | .obj kvs => .obj (kvSet kvs k v)
  | b => b

/-- `d.setdefault(k, v)` lifted to `JVal`. -/
def objSetDefault (base : JVal) (k : String) (v : JVal) : JVal :=
  match base with
  | .obj kvs => .obj (kvSetDefault kvs k v)
  | b => b

/-- `k in d` lifted to `JVal`. -/
def objHasKey (base : JVal) (k : String) : Bool :=
  match base with
  | .obj kvs => (kvs.lookup k).isSome
  | _ => false

/-- Token-usage chunk payload produced by `_extract_usage`. -/
structure UsageOut where
  promptTokens : Int
  completionTokens : Int
  totalTokens : Int
deriving Repr, DecidableEq

/-- `int(x)` on the values `_extract_usage` feeds it (a Python `bool` is an
`int`; a numeric string would also parse, but the translator only meets wire
numbers, so strings are modelled as the failure case). -/
def asPyInt : JVal → Option Int
  | .num n => some n
  | .bool b => some (if b then 1 else 0)
  | _ => none

/-- `_extract_usage(evt)` from `gptmock/infra/sse.py`: read
`(evt.get("response") or {}).get("usage")`, require a dict, then coerce the
three counters with `int(... or 0)` and `int(... or (pt + ct))`; any coercion
failure yields `None`. -/
def extractUsage (evt : JVal) : Option UsageOut :=
  match (JVal.pyOr (evt.getD "response" .null) (.obj [])).getD "usage" .null with
  | .obj kvs =>
      let u := JVal.obj kvs
      match asPyInt (JVal.pyOr (u.getD "input_tokens" .null) (.num 0)),
            asPyInt (JVal.pyOr (u.getD "output_tokens" .null) (.num 0)) with
      | some pt, some ct =>
          match asPyInt (JVal.pyOr (u.getD "total_tokens" .null) (.num (pt + ct))) with
          | some tt => some ⟨pt, ct, tt⟩
          | none => none
      | _, _ => none
  | _ => none

/-- One client-visible SSE frame of the chat translator.  Constructors map
one-to-one onto the `yield` sites of `sse_translate_chat`:
`content` is a chunk whose `delta` is `{"content": text}` (answer deltas, the
`<think>`/`</think>` markers, inlined reasoning text and its `"\n"`
separator); `reasonO3` is the o3-compat structured reasoning chunk;
`reasonSummary`/`reasonFull` are the default-compat chunks carrying
`reasoning_summary`+`reasoning` resp. `reasoning`; `toolCallDelta` and
`finishToolCalls` are the tool-call pair; `annChunk` the annotations chunk;
`stop` a `finish_reason: "stop"` chunk; `errChunk` the `{"error": {...}}`
chunk; `usageChunk` the trailing usage-only chunk; `done` the literal
`data: [DONE]` terminator. -/
inductive Frame where
  | content (text : JVal)
  | reasonO3 (text : JVal)
  | reasonSummary (text : JVal)
  | reasonFull (text : JVal)
  | toolCallDelta (idx : Nat) (callId name : JVal) (args : String)
  | finishToolCalls
  | annChunk (anns : List JVal)
  | stop
  | errChunk (msg : JVal)
  | usageChunk (u : UsageOut)
  | done
deriving Repr, DecidableEq

/-- The translator's per-connection mutable locals. -/
structure ChatSseState where
  responseId : String := "chatcmpl-stream"
  thinkOpen : Bool := false
  thinkClosed : Bool := false
  sawOutput : Bool := false
  sentStopChunk : Bool := false
  sawAnySummary : Bool := false
  pendingSummaryParagraph : Bool := false
  upstreamUsage : Option UsageOut := none
  wsState : List (JVal × JVal) := []
  wsIndex : List (JVal × Nat) := []
  wsNextIndex : Nat := 0
deriving Repr, DecidableEq

/-- `_serialize_tool_args(eff_args)` from `gptmock/infra/sse.py`. -/
def serialize_tool_args (jsonLoads : String → Option JVal) : JVal → String
  | .obj kvs => jvalDumps (.obj kvs)
  | .arr xs => jvalDumps (.arr xs)
  | .str s =>
      match jsonLoads s with
      | some (.obj kvs) => jvalDumps (.obj kvs)
      | some (.arr xs) => jvalDumps (.arr xs)
      | _ => jvalDumps (.obj [("query", .str s)])
  | _ => jvalDumps (.obj [])

/-- `_merge_from(src)` of the web-search branch: merge whole parameter dicts,
then the query/recency/domains/max-results aliases, into the accumulating
parameter dict. -/
def mergeFrom (pd src : JVal) : JVal :=
  match src with
  | .obj _ =>
      let pd := ["parameters", "args", "arguments", "input"].foldl
        (fun acc w =>
          match src.getD w .null with
          | .obj kvs => objUpdate acc kvs
          | _ => acc) pd
      let pd := match src.getD "query" .null with
        | .str q => objSetDefault pd "query" (.str q)
        | _ => pd
      let pd := match src.getD "q" .null with
        | .str q => objSetDefault pd "query" (.str q)
        | _ => pd
      let pd := ["recency", "time_range", "days"].foldl
        (fun acc rk =>
          let v := src.getD rk .null
          if v ≠ .null ∧ ¬objHasKey acc rk then objSet acc rk v else acc) pd
      let pd := ["domains", "include_domains", "include"].foldl
        (fun acc dk =>
          match src.getD dk .null with
          | .arr xs =>
              if ¬objHasKey acc "domains" then objSet acc "domains" (.arr xs)
              else acc
          | _ => acc) pd
      let pd := ["max_results", "topn", "limit"].foldl
        (fun acc mk =>
          let v := src.getD mk .null
          if v ≠ .null ∧ ¬objHasKey acc "max_results" then
            objSet acc "max_results" v
          else acc) pd
      pd
  | _ => pd

/-- `err = evt.get("response", {}).get("error", {}).get("message",
"response.failed")` (a present-but-`null` intermediate, which would raise in
Python, falls back to the same defaults here). -/
def failedErrMessage (evt : JVal) : JVal :=
  ((evt.getD "response" (.obj [])).getD "error" (.obj [])).getD "message"
    (.str "response.failed")

/-- The `response_id` carry-over at the top of the loop (lines 109-110). -/
def respIdUpdate (st : ChatSseState) (evt : JVal) : ChatSseState :=
  match evt.get? "response" with
  | some (.obj kvs) =>
      match (JVal.obj kvs).get? "id" with
      | some (.str i) =>
          { st with responseId := if i ≠ "" then i else st.responseId }
      | _ => st
  | _ => st

/-- The `web_search_call` branch (lines 112-185).  An unhashable call id makes
the first `ws_state` access raise, and the branch-wide `except` then swallows
the whole branch, so that case produces no frames and no state change. -/
def wsBranch (jsonLoads : String → Option JVal) (st : ChatSseState)
    (evt : JVal) (kind : String) : ChatSseState × List Frame :=
  let callId := JVal.pyOr (evt.getD "item_id" .null) (.str "ws_call")
  if ¬callId.hashable then (st, [])
  else
    let item := match evt.get? "item" with
      | some (.obj kvs) => JVal.obj kvs
      | _ => .obj []
    let existing := jAssocGet st.wsState callId
    let aliased := match existing with
      | some (.obj _) => true
      | _ => false
    let pd0 := if aliased then existing.getD (.obj []) else .obj []
    let pd1 := mergeFrom pd0 item
    let pd2 := mergeFrom pd1 evt
    let wsState1 := if aliased then jAssocSet st.wsState callId pd2 else st.wsState
    let wsState2 :=
      if pd2.truthy then
        match jAssocGet wsState1 callId with
        | some (.obj kvs) =>
            jAssocSet wsState1 callId (objUpdate (.obj kvs) (objEntries pd2))
        | some _ => wsState1
        | none => jAssocSet wsState1 callId (objUpdate (.obj []) (objEntries pd2))
      else wsState1
    let effParams := match jAssocGet wsState2 callId with
      | some v => v
      | none => if pd2.truthy then pd2 else .obj []
    let argsStr := serialize_tool_args jsonLoads effParams
    let next :=
      match jIdxGet st.wsIndex callId with
      | some i => (st.wsIndex, st.wsNextIndex, i)
      | none =>
          (st.wsIndex ++ [(callId, st.wsNextIndex)], st.wsNextIndex + 1,
           st.wsNextIndex)
    let frames := [Frame.toolCallDelta next.2.2 callId (.str "web_search") argsStr]
      ++ (if pyEndsWith kind ".completed" ∨ pyEndsWith kind ".done"
          then [Frame.finishToolCalls] else [])
    ({ st with wsState := wsState2, wsIndex := next.1, wsNextIndex := next.2.1 },
     frames)

/-- The `elif` chain of `sse_translate_chat` on a string event kind (lines
187-432).  Returns the next state, the frames yielded, and whether the loop
`break`s (only the `response.completed` branch breaks). -/
def sseChatDispatch (jsonLoads : String → Option JVal) (compat : String)
    (includeUsage : Bool) (st : ChatSseState) (evt : JVal) (kind : String) :
    ChatSseState × List Frame × Bool :=
  if kind = "response.output_text.delta" then
    let delta := JVal.pyOr (evt.getD "delta" .null) (.str "")
    if compat = "think-tags" ∧ st.thinkOpen ∧ ¬st.thinkClosed then
      ({ st with thinkOpen := false, thinkClosed := true, sawOutput := true },
       [Frame.content (.str "</think>"), Frame.content delta], false)
    else
      ({ st with sawOutput := true }, [Frame.content delta], false)
  else if kind = "response.output_item.done" then
    let item := JVal.pyOr (evt.getD "item" .null) (.obj [])
    if item.isObj ∧ (item.getD "type" .null = .str "function_call"
        ∨ item.getD "type" .null = .str "web_search_call") then
      let callId := JVal.pyOr
        (JVal.pyOr (item.getD "call_id" .null) (item.getD "id" .null)) (.str "")
      let name := JVal.pyOr (item.getD "name" .null)
        (if item.getD "type" .null = .str "web_search_call" then .str "web_search"
         else .str "")
      let rawArgs := JVal.pyOr (item.getD "arguments" .null)
        (item.getD "parameters" .null)
      if ¬callId.hashable then (st, [], false)
      else
        let wsState1 :=
          match rawArgs with
          | .obj kvs =>
              (match jAssocGet st.wsState callId with
               | some (.obj e) => jAssocSet st.wsState callId (objUpdate (.obj e) kvs)
               | some _ => st.wsState
               | none => jAssocSet st.wsState callId (objUpdate (.obj []) kvs))
          | _ => st.wsState
        let effArgs :=
          match jAssocGet wsState1 callId with
          | some v => v
          | none =>
              match rawArgs with
              | .obj kvs => .obj kvs
              | .arr xs => .arr xs
              | .str s => .str s
              | _ => .obj []
        let args := serialize_tool_args jsonLoads effArgs
        let next :=
          match jIdxGet st.wsIndex callId with
          | some i => (st.wsIndex, st.wsNextIndex, i)
          | none =>
              (st.wsIndex ++ [(callId, st.wsNextIndex)], st.wsNextIndex + 1,
               st.wsNextIndex)
        let st1 : ChatSseState :=
          { st with wsState := wsState1, wsIndex := next.1, wsNextIndex := next.2.1 }
        if callId.isStr ∧ name.isStr then
          (st1, [Frame.toolCallDelta next.2.2 callId name args,
                 Frame.finishToolCalls], false)
        else (st1, [], false)
    else (st, [], false)
  else if kind = "response.reasoning_summary_part.added" then
    if compat = "think-tags" ∨ compat = "o3" then
      if st.sawAnySummary then
        ({ st with pendingSummaryParagraph := true }, [], false)
      else ({ st with sawAnySummary := true }, [], false)
    else (st, [], false)
  else if kind = "response.reasoning_summary_text.delta"
      ∨ kind = "response.reasoning_text.delta" then
    let deltaTxt := JVal.pyOr (evt.getD "delta" .null) (.str "")
    if compat = "o3" then
      if kind = "response.reasoning_summary_text.delta"
          ∧ st.pendingSummaryParagraph then
        ({ st with pendingSummaryParagraph := false },
         [Frame.reasonO3 (.str "\n"), Frame.reasonO3 deltaTxt], false)
      else (st, [Frame.reasonO3 deltaTxt], false)
    else if compat = "think-tags" then
      let opened :=
        if ¬st.thinkOpen ∧ ¬st.thinkClosed then
          ({ st with thinkOpen := true }, [Frame.content (.str "<think>")])
        else (st, ([] : List Frame))
      let st1 := opened.1
      if st1.thinkOpen ∧ ¬st1.thinkClosed then
        if kind = "response.reasoning_summary_text.delta"
            ∧ st1.pendingSummaryParagraph then
          ({ st1 with pendingSummaryParagraph := false },
           opened.2 ++ [Frame.content (.str "\n"), Frame.content deltaTxt],
           false)
        else (st1, opened.2 ++ [Frame.content deltaTxt], false)
      else (st1, opened.2, false)
    else
      if kind = "response.reasoning_summary_text.delta" then
        (st, [Frame.reasonSummary deltaTxt], false)
      else (st, [Frame.reasonFull deltaTxt], false)
  else if kind = "response.content_part.done" then
    match evt.get? "part" with
    | some (.obj kvs) =>
        if (JVal.obj kvs).getD "type" .null = .str "output_text" then
          match (JVal.obj kvs).get? "annotations" with
          | some (.arr xs) =>
              if xs ≠ [] then (st, [Frame.annChunk xs], false)
              else (st, [], false)
          | _ => (st, [], false)
        else (st, [], false)
    | _ => (st, [], false)
  else if kind = "response.output_text.done" then
    ({ st with sentStopChunk := true }, [Frame.stop], false)
  else if pyEndsWith kind ".done" then (st, [], false)
  else if kind = "response.failed" then
    (st, [Frame.errChunk (failedErrMessage evt)], false)
  else if kind = "response.completed" then
    let st := match extractUsage evt with
      | some m => { st with upstreamUsage := some m }
      | none => st
    let closed :=
      if compat = "think-tags" ∧ st.thinkOpen ∧ ¬st.thinkClosed then
        ({ st with thinkOpen := false, thinkClosed := true },
         [Frame.content (.str "</think>")])
      else (st, ([] : List Frame))
    let st1 := closed.1
    let stopped :=
      if ¬st1.sentStopChunk then
        ({ st1 with sentStopChunk := true }, [Frame.stop])
      else (st1, ([] : List Frame))
    let st2 := stopped.1
    let usageFrames :=
      if includeUsage then
        match st2.upstreamUsage with
        | some u => [Frame.usageChunk u]
        | none => ([] : List Frame)
      else []
    (st2, closed.2 ++ stopped.2 ++ usageFrames ++ [Frame.done], true)
  else (st, [], false)

/-- One loop iteration of `sse_translate_chat` over a decoded event: the
`response_id` carry-over, then the (non-exclusive) `web_search_call` branch,
then the `elif` chain. -/
def sseChatStep (jsonLoads : String → Option JVal) (compat : String)
    (includeUsage : Bool) (st : ChatSseState) (evt : JVal) :
    ChatSseState × List Frame × Bool :=
  let st := respIdUpdate st evt
  match evt.getD "type" .null with
  | .str kind =>
      let ws :=
        if strContains kind "web_search_call" then
          wsBranch jsonLoads st evt kind
        else (st, [])
      let out := sseChatDispatch jsonLoads compat includeUsage ws.1 evt kind
      (out.1, ws.2 ++ out.2.1, out.2.2)
  | _ => (st, [], false)

/-- The whole event loop from a given state. -/
def sseChatRun (jsonLoads : String → Option JVal) (compat : String)
    (includeUsage : Bool) (st : ChatSseState) : List JVal → List Frame
  | [] => []
  | e :: rest =>
      let out := sseChatStep jsonLoads compat includeUsage st e
      out.2.1 ++ (if out.2.2 then []
                  else sseChatRun jsonLoads compat includeUsage out.1 rest)

/-- `compat = (reasoning_compat or "think-tags").strip().lower()`. -/
def normalizeCompat (rc : String) : String :=
  pyLower (pyStrip (if rc ≠ "" then rc else "think-tags"))

/-- `sse_translate_chat` from `gptmock/infra/sse.py` as a function from the
decoded upstream event list to the emitted frame list. -/
def sse_translate_chat (jsonLoads : String → Option JVal)
    (reasoningCompat : String) (includeUsage : Bool) (events : List JVal) :
    List Frame :=
  sseChatRun jsonLoads (normalizeCompat reasoningCompat) includeUsage {} events

/-! ### Claim C1 — think-tag open/close discipline -/

/-- An upstream event `{"type": k, "delta": d}`. -/
def mkKindDeltaEvt (k : String) (d : JVal) : JVal :=
  .obj [("type", .str k), ("delta", d)]

/-- An upstream `{"type": "response.completed"}` event. -/
def mkCompletedEvt : JVal := .obj [("type", .str "response.completed")]

theorem normalizeCompat_think_tags : normalizeCompat "think-tags" = "think-tags" := rfl

theorem c1_step_open (loads : String → Option JVal) (iu : Bool) (k : String)
    (d : JVal)
    (hk : k = "response.reasoning_summary_text.delta"
      ∨ k = "response.reasoning_text.delta") :
    sseChatStep loads "think-tags" iu {} (mkKindDeltaEvt k d) =
      ({ thinkOpen := true }, [Frame.content (.str "<think>"),
        Frame.content (JVal.pyOr d (.str ""))], false) := by
  rcases hk with rfl | rfl <;> rfl

theorem c1_step_more (loads : String → Option JVal) (iu : Bool) (k : String)
    (d : JVal)
    (hk : k = "response.reasoning_summary_text.delta"
      ∨ k = "response.reasoning_text.delta") :
    sseChatStep loads "think-tags" iu { thinkOpen := true } (mkKindDeltaEvt k d) =
      ({ thinkOpen := true }, [Frame.content (JVal.pyOr d (.str ""))], false) := by
  rcases hk with rfl | rfl <;> rfl

theorem c1_step_answer (loads : String → Option JVal) (iu : Bool) (d : JVal) :
    sseChatStep loads "think-tags" iu { thinkOpen := true }
      (mkKindDeltaEvt "response.output_text.delta" d) =
      ({ thinkClosed := true, sawOutput := true },
       [Frame.content (.str "</think>"), Frame.content (JVal.pyOr d (.str ""))],
       false) := rfl

theorem c1_step_completed_closed (loads : String → Option JVal) (iu : Bool) :
    sseChatStep loads "think-tags" iu { thinkClosed := true, sawOutput := true }
      mkCompletedEvt =
      ({ thinkClosed := true, sawOutput := true, sentStopChunk := true },
       [Frame.stop, Frame.done], true) := by
  cases iu <;> rfl

theorem c1_step_completed_open (loads : String → Option JVal) (iu : Bool) :
    sseChatStep loads "think-tags" iu { thinkOpen := true } mkCompletedEvt =
      ({ thinkClosed := true, sentStopChunk := true },
       [Frame.content (.str "</think>"), Frame.stop, Frame.done], true) := by
  cases iu <;> rfl

/-- C1.  In think-tags mode, for any two reasoning deltas (summary- or
full-reasoning kind) the opening `<think>` marker is emitted lazily with the
first reasoning delta and exactly once; the closing `</think>` marker is
emitted exactly once, immediately before the first answer-content frame when
an answer delta arrives, or at completion when none does; and a stop frame
(then the terminator) ends the stream either way. -/
theorem C1_think_tag_discipline (loads : String → Option JVal) (iu : Bool)
    (k1 k2 : String) (d1 d2 d3 : JVal)
    (h1 : k1 = "response.reasoning_summary_text.delta"
      ∨ k1 = "response.reasoning_text.delta")
    (h2 : k2 = "response.reasoning_summary_text.delta"
      ∨ k2 = "response.reasoning_text.delta") :
    sse_translate_chat loads "think-tags" iu
        [mkKindDeltaEvt k1 d1, mkKindDeltaEvt k2 d2,
         mkKindDeltaEvt "response.output_text.delta" d3, mkCompletedEvt] =
      [Frame.content (.str "<think>"), Frame.content (JVal.pyOr d1 (.str "")),
       Frame.content (JVal.pyOr d2 (.str "")), Frame.content (.str "</think>"),
       Frame.content (JVal.pyOr d3 (.str "")), Frame.stop, Frame.done]
    ∧ sse_translate_chat loads "think-tags" iu
        [mkKindDeltaEvt k1 d1, mkKindDeltaEvt k2 d2, mkCompletedEvt] =
      [Frame.content (.str "<think>"), Frame.content (JVal.pyOr d1 (.str "")),
       Frame.content (JVal.pyOr d2 (.str "")), Frame.content (.str "</think>"),
       Frame.stop, Frame.done] := by
  constructor
  · show sseChatRun loads (normalizeCompat "think-tags") iu {} _ = _
    rw [normalizeCompat_think_tags]
    simp only [sseChatRun, c1_step_open loads iu k1 d1 h1,
      c1_step_more loads iu k2 d2 h2, c1_step_answer,
      c1_step_completed_closed]
    rfl
  · show sseChatRun loads (normalizeCompat "think-tags") iu {} _ = _
    rw [normalizeCompat_think_tags]
    simp only [sseChatRun, c1_step_open loads iu k1 d1 h1,
      c1_step_more loads iu k2 d2 h2, c1_step_completed_open]
    rfl

/-- C1 witness: the discipline at a concrete event sequence. -/
theorem C1_think_tag_discipline_witness :
    sse_translate_chat (fun _ => none) "think-tags" false
        [mkKindDeltaEvt "response.reasoning_summary_text.delta" (.str "r1"),
         mkKindDeltaEvt "response.reasoning_text.delta" (.str "r2"),
         mkKindDeltaEvt "response.output_text.delta" (.str "Hi"), mkCompletedEvt] =
      [Frame.content (.str "<think>"),
       Frame.content (JVal.pyOr (.str "r1") (.str "")),
       Frame.content (JVal.pyOr (.str "r2") (.str "")),
       Frame.content (.str "</think>"),
       Frame.content (JVal.pyOr (.str "Hi") (.str "")), Frame.stop, Frame.done]
    ∧ sse_translate_chat (fun _ => none) "think-tags" false
        [mkKindDeltaEvt "response.reasoning_summary_text.delta" (.str "r1"),
         mkKindDeltaEvt "response.reasoning_text.delta" (.str "r2"),
         mkCompletedEvt] =
      [Frame.content (.str "<think>"),
       Frame.content (JVal.pyOr (.str "r1") (.str "")),
       Frame.content (JVal.pyOr (.str "r2") (.str "")),
       Frame.content (.str "</think>"), Frame.stop, Frame.done] :=
  C1_think_tag_discipline (fun _ => none) false
    "response.reasoning_summary_text.delta" "response.reasoning_text.delta"
    (.str "r1") (.str "r2") (.str "Hi") (Or.inl rfl) (Or.inr rfl)

/-! ### `chatmock/services/chat.py` — non-streaming aggregation (lines 352-448)
and claim C4 -/

/-- The error a service function raises
(`ChatCompletionError(message, status_code, error_data)`). -/
structure ChatError where
  message : JVal
  status : Nat
  errorData : JVal
deriving Repr, DecidableEq

/-- `evt.get("delta") or ""` flowing into `str +=` (a truthy non-string delta
would raise `TypeError` in Python; the model keeps the accumulator unchanged). -/
def pyStrDelta (evt : JVal) : String :=
  match JVal.pyOr (evt.getD "delta" .null) (.str "") with
  | .str s => s
  | _ => ""

/-- The aggregation loop's mutable locals. -/
structure AggState where
  fullText : String := ""
  reasoningSummaryText : String := ""
  reasoningFullText : String := ""
  responseId : String := "chatcmpl"
  toolCalls : List JVal := []
  errorMessage : JVal := .null
  usage : Option UsageOut := none
deriving Repr, DecidableEq

/-- Is the event the terminal `response.completed` (the loop `break`)? -/
def aggIsCompleted (evt : JVal) : Bool :=
  match evt.getD "type" .null with
  | .str k => k = "response.completed"
  | _ => false

/-- Is the event a `response.failed`? -/
def aggIsFailed (evt : JVal) : Bool :=
  match evt.getD "type" .null with
  | .str k => k = "response.failed"
  | _ => false

/-- The usage and response-id carry-over at the top of each aggregation-loop
iteration (lines 380-384). -/
def aggPre (st : AggState) (evt : JVal) : AggState :=
  let st := match extractUsage evt with
    | some m => { st with usage := some m }
    | none => st
  match evt.get? "response" with
  | some (.obj kvs) =>
      (match (JVal.obj kvs).get? "id" with
       | some (.str i) =>
           { st with responseId := if i ≠ "" then i else st.responseId }
       | _ => st)
  | _ => st

/-- The `elif` chain of the aggregation loop (lines 386-408), accumulating
text, tool calls and the failure message. -/
def aggDispatch (st : AggState) (evt : JVal) : AggState :=
  match evt.getD "type" .null with
  | .str kind =>
      if kind = "response.output_text.delta" then
        { st with fullText := st.fullText ++ pyStrDelta evt }
      else if kind = "response.reasoning_summary_text.delta" then
        { st with reasoningSummaryText := st.reasoningSummaryText ++ pyStrDelta evt }
      else if kind = "response.reasoning_text.delta" then
        { st with reasoningFullText := st.reasoningFullText ++ pyStrDelta evt }
      else if kind = "response.output_item.done" then
        let item := JVal.pyOr (evt.getD "item" .null) (.obj [])
        if item.isObj ∧ item.getD "type" .null = .str "function_call" then
          let callId := JVal.pyOr
            (JVal.pyOr (item.getD "call_id" .null) (item.getD "id" .null))
            (.str "")
          let name := JVal.pyOr (item.getD "name" .null) (.str "")
          let args := JVal.pyOr (item.getD "arguments" .null) (.str "")
          match callId, name, args with
          | .str cid, .str nm, .str ag =>
              { st with toolCalls := st.toolCalls ++
                  [JVal.obj [("id", .str cid), ("type", .str "function"),
                    ("function", .obj [("name", .str nm),
                      ("arguments", .str ag)])]] }
          | _, _, _ => st
        else st
      else if kind = "response.failed" then
        { st with errorMessage := failedErrMessage evt }
      else st
  | _ => st

/-- One iteration of the non-streaming aggregation loop. -/
def aggStep (st : AggState) (evt : JVal) : AggState :=
  aggDispatch (aggPre st evt) evt

/-- The aggregation loop, breaking after the first `response.completed`. -/
def collectChatRun (st : AggState) : List JVal → AggState
  | [] => st
  | e :: rest =>
      let st' := aggStep st e
      if aggIsCompleted e then st' else collectChatRun st' rest

/-- The failure message left in `error_message` after the loop: the extraction
of the last `response.failed` event observed before the first
`response.completed`, starting from `cur`. -/
def aggLastFailed (cur : JVal) : List JVal → JVal
  | [] => cur
  | e :: rest =>
      let cur' := if aggIsFailed e then failedErrMessage e else cur
      if aggIsCompleted e then cur' else aggLastFailed cur' rest

/-- The non-streaming chat completion collector (lines 352-448 of
`chatmock/services/chat.py`): run the aggregation loop, raise a 502
translation error when a truthy failure message was recorded, otherwise
assemble the single `chat.completion` document.  `applyReasoning` is the
oracle for the missing `apply_reasoning_to_message` helper. -/
def collect_chat_non_stream (applyReasoning : JVal → String → String → String → JVal)
    (reasoningCompat : String) (created : Int) (modelField : JVal)
    (events : List JVal) : Except ChatError JVal :=
  let st := collectChatRun {} events
  if st.errorMessage.truthy then
    .error ⟨st.errorMessage, 502,
      .obj [("error", .obj [("message", st.errorMessage)])]⟩
  else
    let message0 := JVal.obj
      ([("role", .str "assistant"),
        ("content", if st.fullText ≠ "" then .str st.fullText else .null)]
       ++ (if st.toolCalls ≠ [] then [("tool_calls", .arr st.toolCalls)] else []))
    let message := applyReasoning message0 st.reasoningSummaryText
      st.reasoningFullText reasoningCompat
    .ok (JVal.obj
      ([("id", .str (if st.responseId ≠ "" then st.responseId else "chatcmpl")),
        ("object", .str "chat.completion"), ("created", .num created),
        ("model", modelField),
        ("choices", .arr [JVal.obj [("index", .num 0), ("message", message),
          ("finish_reason", .str "stop")]])]
       ++ (match st.usage with
           | some u => [("usage", .obj
               [("prompt_tokens", .num u.promptTokens),
                ("completion_tokens", .num u.completionTokens),
                ("total_tokens", .num u.totalTokens)])]
           | none => [])))

theorem aggPre_errorMessage (st : AggState) (evt : JVal) :
    (aggPre st evt).errorMessage = st.errorMessage := by
  unfold aggPre
  repeat' split
  all_goals simp_all

theorem aggDispatch_errorMessage (st : AggState) (evt : JVal) :
    (aggDispatch st evt).errorMessage =
      if aggIsFailed evt then failedErrMessage evt else st.errorMessage := by
  unfold aggDispatch aggIsFailed
  repeat' split
  all_goals try simp_all
  all_goals repeat' split
  all_goals simp_all

theorem aggStep_errorMessage (st : AggState) (evt : JVal) :
    (aggStep st evt).errorMessage =
      if aggIsFailed evt then failedErrMessage evt else st.errorMessage := by
  rw [aggStep, aggDispatch_errorMessage, aggPre_errorMessage]

theorem collectChatRun_errorMessage (events : List JVal) : ∀ st : AggState,
    (collectChatRun st events).errorMessage =
      aggLastFailed st.errorMessage events := by
  induction events with
  | nil => intro st; rfl
  | cons e rest ih =>
      intro st
      unfold collectChatRun aggLastFailed
      by_cases hc : aggIsCompleted e
      · simp [hc, aggStep_errorMessage]
      · simp [hc, aggStep_errorMessage, ih]

/-- An upstream `response.failed` event carrying `m` as
`response.error.message`. -/
def mkFailedEvt (m : JVal) : JVal :=
  .obj [("type", .str "response.failed"),
        ("response", .obj [("error", .obj [("message", m)])])]

/-- C4, corrected.  Stream mode: a `response.failed` event yields exactly one
error frame carrying its message, leaves the translator state unchanged, does
*not* emit the stream terminator, and does *not* stop translation — later
events keep producing frames.  Aggregate mode: whenever the last
`response.failed` observed before completion carries a truthy extracted
message (the extraction defaults to `"response.failed"` when the field is
absent), the call raises a 502 translation error and never returns a success
document. -/
theorem C4_failed_event (loads : String → Option JVal) (compat : String)
    (iu : Bool) :
    (∀ (st : ChatSseState) (m : JVal) (rest : List JVal),
      sseChatRun loads compat iu st (mkFailedEvt m :: rest) =
        Frame.errChunk m :: sseChatRun loads compat iu st rest)
    ∧ (∀ (ar : JVal → String → String → String → JVal) (rc : String)
        (created : Int) (modelField : JVal) (events : List JVal),
        (aggLastFailed .null events).truthy = true →
        collect_chat_non_stream ar rc created modelField events =
          .error ⟨aggLastFailed .null events, 502,
            .obj [("error", .obj [("message", aggLastFailed .null events)])]⟩) := by
  constructor
  · intro st m rest
    rfl
  · intro ar rc created modelField events h
    have he : (collectChatRun {} events).errorMessage =
        aggLastFailed .null events := collectChatRun_errorMessage events {}
    unfold collect_chat_non_stream
    simp only [he, h, if_true]

/-- C4 witness: both corrected behaviours at concrete inputs. -/
theorem C4_failed_event_witness :
    sseChatRun (fun _ => none) "think-tags" false {}
        (mkFailedEvt (.str "boom") :: []) =
      Frame.errChunk (.str "boom") ::
        sseChatRun (fun _ => none) "think-tags" false {} []
    ∧ collect_chat_non_stream (fun m _ _ _ => m) "think-tags" 0 (.str "m")
        [mkFailedEvt (.str "boom")] =
      .error ⟨aggLastFailed .null [mkFailedEvt (.str "boom")], 502,
        .obj [("error", .obj [("message",
          aggLastFailed .null [mkFailedEvt (.str "boom")])])]⟩ :=
  ⟨(C4_failed_event (fun _ => none) "think-tags" false).1 {} (.str "boom") [],
   (C4_failed_event (fun _ => none) "think-tags" false).2 (fun m _ _ _ => m)
     "think-tags" 0 (.str "m") [mkFailedEvt (.str "boom")] (by decide)⟩

/-- C4 counterexample to the claim as stated: in stream mode a
`response.failed` event is followed by neither the terminator nor silence —
a later answer delta still becomes a content frame, and no `[DONE]` frame is
emitted at all. -/
theorem C4_counterexample :
    sse_translate_chat (fun _ => none) "think-tags" false
        [mkFailedEvt (.str "boom"),
         mkKindDeltaEvt "response.output_text.delta" (.str "x")] =
      [Frame.errChunk (.str "boom"), Frame.content (.str "x")]
    ∧ Frame.done ∉ [Frame.errChunk (.str "boom"), Frame.content (.str "x")] :=
  ⟨by decide, by decide⟩

/-! ### `chatmock/services/chat.py` — `process_chat_completion`

The orchestrator is embedded up to the point where the chosen upstream
response is handed to translation (streaming) or aggregation.  Helpers that
live in modules outside the sources in scope are oracle parameters:
`convertTools` for `convert_tools_chat_to_responses`, `convertMessages` for
`convert_chat_messages_to_responses_input`, `ensureSession` for
`ensure_session_id`, and `buildReasoning` for the already-computed
`build_reasoning_param` outcome (modelled from the spec: requesting an effort
the model does not support is an error, so the outcome is `Except`-valued).
`auth` is the `get_effective_chatgpt_auth()` pair with `none` for a
missing/empty credential, and `upstreamCall` maps the POST index to its
outcome.  The function returns the processing outcome together with the list
of upstream requests actually issued (the POST count). -/

/-- An upstream HTTP response as the retry policy observes it: the status code
and the decoded `body["error"]["message"]` when the error body carries one. -/
structure UpstreamResp where
  status : Nat
  errMessage : Option String
deriving Repr, DecidableEq

/-- Outcome of one upstream POST: a network error (`httpx.RequestError`) or a
response. -/
inductive UpstreamCallResult where
  | netErr (msg : String)
  | resp (r : UpstreamResp)
deriving Repr, DecidableEq

/-- The canonical upstream request payload built by `_call_upstream`
(lines 54-69): the `instructions if ... else instructions` expression is the
identity and is kept as the plain field. -/
structure UpstreamRequest where
  model : String
  instrs : Option String
  input : List JVal
  tools : List JVal
  toolChoice : JVal
  parallelToolCalls : Bool
  reasoning : Option JVal
  sessionId : String
deriving Repr, DecidableEq

/-- `_call_upstream`'s payload construction, including the tool-choice shape
coercion at line 59. -/
def mkUpstreamRequest (model : String) (inputItems : List JVal)
    (sessionId : String) (instructions : Option String) (tools : List JVal)
    (toolChoice : JVal) (parallel : Bool) (reasoningParam : Option JVal) :
    UpstreamRequest :=
  { model := model, instrs := instructions, input := inputItems,
    tools := tools, toolChoice := upstreamToolChoice toolChoice,
    parallelToolCalls := parallel, reasoning := reasoningParam,
    sessionId := sessionId }

/-- The successful outcome handed to translation: which POST's response is
streamed/aggregated, and the client-facing mode flags. -/
structure ChatOutcome where
  callIndex : Nat
  resp : UpstreamResp
  isStream : Bool
  includeUsage : Bool
deriving Repr, DecidableEq

/-- The settings fields `process_chat_completion` reads. -/
structure SettingsM where
  debugModel : Option String := none
  defaultWebSearch : Bool := false
  reasoningCompat : String := "think-tags"
  baseInstructions : String := "base"
  gpt5CodexInstructions : Option String := none
deriving Repr, DecidableEq

/-- `(err_body.get("error", {}) or {}).get("message", "Upstream error")` over
an upstream error response. -/
def upstreamErrMessage (r : UpstreamResp) : JVal :=
  match r.errMessage with
  | some m => .str m
  | none => .str "Upstream error"

/-- The 400 raised at line 150 for a non-list `messages` field. -/
def messagesInvalidErr : ChatError :=
  ⟨.str "Request must include messages: []", 400,
   .obj [("error", .obj [("message", .str "Request must include messages: []")])]⟩

/-- The 401 raised at line 252 when no usable credential exists. -/
def missingCredsErr : ChatError :=
  ⟨.str "Missing ChatGPT credentials. Run 'python3 chatmock.py login' first.", 401,
   .obj [("error", .obj [("message",
     .str "Missing ChatGPT credentials. Run 'python3 chatmock.py login' first.")])]⟩

/-- The 400 raised at line 206 for a disallowed extension tool type. -/
def respToolsUnsupportedErr : ChatError :=
  ⟨.str "Only web_search/web_search_preview are supported in responses_tools", 400,
   .obj [("error", .obj [("message",
      .str "Only web_search/web_search_preview are supported in responses_tools"),
     ("code", .str "RESPONSES_TOOL_UNSUPPORTED")])]⟩

/-- The 400 raised at line 230 for an oversized extension tool channel. -/
def respToolsTooLargeErr : ChatError :=
  ⟨.str "responses_tools too large", 400,
   .obj [("error", .obj [("message", .str "responses_tools too large"),
     ("code", .str "RESPONSES_TOOLS_TOO_LARGE")])]⟩

/-- `payload.get("responses_tools") if isinstance(..., list) else []`. -/
def pccResponsesToolsRaw (payload : JVal) : List JVal :=
  match payload.getD "responses_tools" .null with
  | .arr xs => xs
  | _ => []

/-- The `isinstance(_t, dict) and isinstance(_t.get("type"), str)` guard of
the validation loop: the entry's string `type`, when the entry is a dict
carrying one. -/
def toolTypeOf (t : JVal) : Option String :=
  match t with
  | .obj kvs =>
      (match (JVal.obj kvs).get? "type" with
       | some (.str ty) => some ty
       | _ => none)
  | _ => none

/-- The validation loop over `responses_tools` (lines 202-216): non-dict
entries and entries without a string `type` are skipped; the first entry with
a `type` outside `{web_search, web_search_preview}` raises; accepted entries
are collected in order. -/
def collectExtraTools : List JVal → Except ChatError (List JVal)
  | [] => .ok []
  | t :: rest =>
      match toolTypeOf t with
      | some ty =>
          if ty = "web_search" ∨ ty = "web_search_preview" then
            match collectExtraTools rest with
            | .ok r => .ok (t :: r)
            | .error e => .error e
          else .error respToolsUnsupportedErr
      | none => collectExtraTools rest

/-- The extension tool channel after the default-web-search injection
(lines 218-221): when the validated channel is empty, the server-wide flag is
set, and the caller did not opt out with `responses_tool_choice == "none"`,
one `{"type": "web_search"}` tool is injected. -/
def pccExtras (payload : JVal) (defaultWebSearch : Bool)
    (extras0 : List JVal) : List JVal :=
  if extras0 = [] ∧ defaultWebSearch then
    (if payload.getD "responses_tool_choice" .null = .str "none" then extras0
     else [JVal.obj [("type", .str "web_search")]])
  else extras0

/-- The tool-processing stage (lines 197-236): validate the channel, inject
the default, size-cap the serialized extension channel at 32768 bytes, and
append it to the converted base tools.  Returns the final tools list and the
`had_responses_tools` flag. -/
def processResponsesTools (payload : JVal) (defaultWebSearch : Bool)
    (toolsResponses : List JVal) : Except ChatError (List JVal × Bool) :=
  match collectExtraTools (pccResponsesToolsRaw payload) with
  | .error e => .error e
  | .ok extras0 =>
      let extras := pccExtras payload defaultWebSearch extras0
      if extras = [] then .ok (toolsResponses, false)
      else
        if (jvalDumps (.arr extras)).length > 32768 then
          .error respToolsTooLargeErr
        else .ok (toolsResponses ++ extras, true)

deriving instance DecidableEq for Except

/-- Steps (1) of `process_chat_completion` (lines 137-147): the raw `messages`
value, with the `prompt`/`input` string fallbacks applied when `messages` is
missing or `None`. -/
def pccMessagesVal (payload : JVal) : JVal :=
  let m0 := payload.getD "messages" .null
  if m0 = .null then
    match payload.getD "prompt" .null with
    | .str p => .arr [JVal.obj [("role", .str "user"), ("content", .str p)]]
    | _ =>
        match payload.getD "input" .null with
        | .str i => .arr [JVal.obj [("role", .str "user"), ("content", .str i)]]
        | _ => .arr []
  else m0

/-- Step (3): `bool(payload.get("stream", False))` unless overridden. -/
def pccIsStream (payload : JVal) (ov : Option Bool) : Bool :=
  ov.getD (payload.getD "stream" (.bool false)).truthy

/-- Step (3): `stream_options.get("include_usage", False)` truthiness. -/
def pccIncludeUsage (payload : JVal) : Bool :=
  let so := match payload.getD "stream_options" .null with
    | .obj kvs => JVal.obj kvs
    | _ => .obj []
  (so.getD "include_usage" (.bool false)).truthy

/-- Step (7): the client tool-choice possibly overridden by a string
`responses_tool_choice` of `"auto"`/`"none"` (lines 238-240). -/
def pccToolChoice (payload : JVal) : JVal :=
  let rtc := payload.getD "responses_tool_choice" .null
  if rtc = .str "auto" ∨ rtc = .str "none" then rtc
  else payload.getD "tool_choice" (.str "auto")

/-- Step (8): converted input items with the non-empty `prompt` fallback item
(lines 243-247). -/
def pccInputItems (convertMessages : List JVal → List JVal) (payload : JVal)
    (messages : List JVal) : List JVal :=
  let items := convertMessages messages
  if items = [] then
    match payload.getD "prompt" .null with
    | .str p =>
        if pyStrip p ≠ "" then
          [JVal.obj [("type", .str "message"), ("role", .str "user"),
            ("content", .arr [JVal.obj [("type", .str "input_text"),
              ("text", .str p)]])]]
        else items
    | _ => items
  else items

/-- Step (4): the normalized model. -/
def pccModel (settings : SettingsM) (payload : JVal) : String :=
  normalize_model_name (payload.getD "model" .null) settings.debugModel

/-- Step (6): the system instructions for the normalized model. -/
def pccInstrs (settings : SettingsM) (payload : JVal) : String :=
  get_instructions_for_model (pccModel settings payload)
    settings.baseInstructions settings.gpt5CodexInstructions

/-- Step (7): `bool(payload.get("parallel_tool_calls", False))`. -/
def pccParallel (payload : JVal) : Bool :=
  (payload.getD "parallel_tool_calls" (.bool false)).truthy

/-- `process_chat_completion` (lines 112-351 of `chatmock/services/chat.py`)
up to the translation hand-off.  Returns the outcome and the list of upstream
requests issued. -/
def processChatCompletion (convertTools : JVal → List JVal)
    (convertMessages : List JVal → List JVal)
    (buildReasoning : Except ChatError (Option JVal))
    (ensureSession : String → List JVal → Option String → String)
    (auth : Option String × Option String)
    (upstreamCall : Nat → UpstreamCallResult)
    (settings : SettingsM) (payload : JVal) (clientSessionId : Option String)
    (isStreamOverride : Option Bool) :
    Except ChatError ChatOutcome × List UpstreamRequest :=
  match pccMessagesVal payload with
  | .arr messages0 =>
    let messages := relocateSystemMessages messages0
    let isStream := pccIsStream payload isStreamOverride
    let includeUsage := pccIncludeUsage payload
    let model := pccModel settings payload
    match buildReasoning with
    | .error e => (.error e, [])
    | .ok reasoningParam =>
      let instructions := pccInstrs settings payload
      let toolsResponses := convertTools (payload.getD "tools" .null)
      let parallel := pccParallel payload
      match processResponsesTools payload settings.defaultWebSearch
          toolsResponses with
      | .error e => (.error e, [])
      | .ok stage =>
        let toolChoice := pccToolChoice payload
        let inputItems := pccInputItems convertMessages payload messages
        match auth with
        | (some _, some _) =>
          let sessionId := ensureSession instructions inputItems clientSessionId
          let req0 := mkUpstreamRequest model inputItems sessionId
            (some instructions) stage.1 toolChoice parallel reasoningParam
          match upstreamCall 0 with
          | .netErr msg =>
              (.error ⟨.str ("Upstream ChatGPT request failed: " ++ msg), 502,
                .obj []⟩, [req0])
          | .resp r1 =>
            if r1.status ≥ 400 then
              if stage.2 then
                let baseToolsOnly := convertTools (payload.getD "tools" .null)
                let safeChoice := payload.getD "tool_choice" (.str "auto")
                let req1 := mkUpstreamRequest model inputItems sessionId
                  (some settings.baseInstructions) baseToolsOnly safeChoice
                  parallel reasoningParam
                match upstreamCall 1 with
                | .netErr msg =>
                    (.error ⟨.str ("Upstream ChatGPT request failed: " ++ msg),
                      502, .obj []⟩, [req0, req1])
                | .resp r2 =>
                  if r2.status < 400 then
                    (.ok ⟨1, r2, isStream, includeUsage⟩, [req0, req1])
                  else
                    (.error ⟨upstreamErrMessage r1, r2.status,
                      .obj [("error", .obj [("message", upstreamErrMessage r1),
                        ("code", .str "RESPONSES_TOOLS_REJECTED")])]⟩,
                     [req0, req1])
              else
                (.error ⟨upstreamErrMessage r1, r1.status,
                  .obj [("error", .obj [("message", upstreamErrMessage r1)])]⟩,
                 [req0])
            else (.ok ⟨0, r1, isStream, includeUsage⟩, [req0])
        | _ => (.error missingCredsErr, [])
  | _ => (.error messagesInvalidErr, [])

/-- The canonical request of the first upstream POST (step 11). -/
def pccFirstRequest (convertMessages : List JVal → List JVal)
    (ensureSession : String → List JVal → Option String → String)
    (settings : SettingsM) (payload : JVal) (csid : Option String)
    (msgs : List JVal) (rp : Option JVal) (tools : List JVal) :
    UpstreamRequest :=
  mkUpstreamRequest (pccModel settings payload)
    (pccInputItems convertMessages payload (relocateSystemMessages msgs))
    (ensureSession (pccInstrs settings payload)
      (pccInputItems convertMessages payload (relocateSystemMessages msgs)) csid)
    (some (pccInstrs settings payload)) tools (pccToolChoice payload)
    (pccParallel payload) rp

/-- The canonical request of the tool-rejection retry (lines 291-308): the
extension channel is dropped (base tools only), the tool choice reverts to
the client's raw `tool_choice`, and the instructions revert to the base
instructions. -/
def pccRetryRequest (convertTools : JVal → List JVal)
    (convertMessages : List JVal → List JVal)
    (ensureSession : String → List JVal → Option String → String)
    (settings : SettingsM) (payload : JVal) (csid : Option String)
    (msgs : List JVal) (rp : Option JVal) : UpstreamRequest :=
  mkUpstreamRequest (pccModel settings payload)
    (pccInputItems convertMessages payload (relocateSystemMessages msgs))
    (ensureSession (pccInstrs settings payload)
      (pccInputItems convertMessages payload (relocateSystemMessages msgs)) csid)
    (some settings.baseInstructions) (convertTools (payload.getD "tools" .null))
    (payload.getD "tool_choice" (.str "auto")) (pccParallel payload) rp

/-- C2, corrected.  With the extension tool channel active
(`had_responses_tools`), a first upstream status ≥ 400 triggers exactly one
retry whose request drops the extension channel (base tools only) and reverts
the tool choice to the client's raw `tool_choice`; a successful retry is
returned to the client with no trace of the failed attempt; a failed retry
surfaces the **retry's status** but the **first attempt's** error message,
tagged `RESPONSES_TOOLS_REJECTED`.  Without the channel the first error is
surfaced immediately with no retry. -/
theorem C2_tool_rejection_retry
    (convertTools : JVal → List JVal) (convertMessages : List JVal → List JVal)
    (ensureSession : String → List JVal → Option String → String)
    (upstreamCall : Nat → UpstreamCallResult) (settings : SettingsM)
    (payload : JVal) (csid : Option String) (ov : Option Bool)
    (msgs : List JVal) (rp : Option JVal) (atk aid : String)
    (r1 : UpstreamResp)
    (hm : pccMessagesVal payload = .arr msgs)
    (h0 : upstreamCall 0 = .resp r1)
    (h1s : 400 ≤ r1.status) :
    (∀ tools r2, processResponsesTools payload settings.defaultWebSearch
          (convertTools (payload.getD "tools" .null)) = .ok (tools, true) →
        upstreamCall 1 = .resp r2 → r2.status < 400 →
        processChatCompletion convertTools convertMessages (.ok rp)
            ensureSession (some atk, some aid) upstreamCall settings payload
            csid ov =
          (.ok ⟨1, r2, pccIsStream payload ov, pccIncludeUsage payload⟩,
           [pccFirstRequest convertMessages ensureSession settings payload csid
              msgs rp tools,
            pccRetryRequest convertTools convertMessages ensureSession settings
              payload csid msgs rp]))
    ∧ (∀ tools r2, processResponsesTools payload settings.defaultWebSearch
          (convertTools (payload.getD "tools" .null)) = .ok (tools, true) →
        upstreamCall 1 = .resp r2 → 400 ≤ r2.status →
        processChatCompletion convertTools convertMessages (.ok rp)
            ensureSession (some atk, some aid) upstreamCall settings payload
            csid ov =
          (.error ⟨upstreamErrMessage r1, r2.status,
            .obj [("error", .obj [("message", upstreamErrMessage r1),
              ("code", .str "RESPONSES_TOOLS_REJECTED")])]⟩,
           [pccFirstRequest convertMessages ensureSession settings payload csid
              msgs rp tools,
            pccRetryRequest convertTools convertMessages ensureSession settings
              payload csid msgs rp]))
    ∧ (∀ tools0, processResponsesTools payload settings.defaultWebSearch
          (convertTools (payload.getD "tools" .null)) = .ok (tools0, false) →
        processChatCompletion convertTools convertMessages (.ok rp)
            ensureSession (some atk, some aid) upstreamCall settings payload
            csid ov =
          (.error ⟨upstreamErrMessage r1, r1.status,
            .obj [("error", .obj [("message", upstreamErrMessage r1)])]⟩,
           [pccFirstRequest convertMessages ensureSession settings payload csid
              msgs rp tools0])) := by
  refine ⟨?_, ?_, ?_⟩
  · intro tools r2 hstage h1 h2
    unfold processChatCompletion
    rw [hm]
    simp only [hstage, h0, h1]
    simp [pccFirstRequest, pccRetryRequest, h1s, h2]
  · intro tools r2 hstage h1 h2
    unfold processChatCompletion
    rw [hm]
    simp only [hstage, h0, h1]
    simp [pccFirstRequest, pccRetryRequest, h1s, Nat.not_lt.mpr h2]
  · intro tools0 hstage
    unfold processChatCompletion
    rw [hm]
    simp only [hstage, h0]
    simp [pccFirstRequest, h1s]

/-- C2 witness: a rejected first call with the channel active, followed by a
successful retry, at concrete inputs. -/
theorem C2_tool_rejection_retry_witness :
    processChatCompletion (fun _ => []) (fun _ => []) (.ok none)
        (fun _ _ _ => "sid") (some "tok", some "acct")
        (fun n => if n = 0 then .resp ⟨500, some "m1"⟩ else .resp ⟨200, none⟩)
        {} (.obj [("messages", .arr []),
          ("responses_tools", .arr [.obj [("type", .str "web_search")]])])
        none none =
      (.ok ⟨1, ⟨200, none⟩,
        pccIsStream (.obj [("messages", .arr []),
          ("responses_tools", .arr [.obj [("type", .str "web_search")]])]) none,
        pccIncludeUsage (.obj [("messages", .arr []),
          ("responses_tools", .arr [.obj [("type", .str "web_search")]])])⟩,
       [pccFirstRequest (fun _ => []) (fun _ _ _ => "sid") {}
          (.obj [("messages", .arr []),
            ("responses_tools", .arr [.obj [("type", .str "web_search")]])])
          none [] none [.obj [("type", .str "web_search")]],
        pccRetryRequest (fun _ => []) (fun _ => []) (fun _ _ _ => "sid") {}
          (.obj [("messages", .arr []),
            ("responses_tools", .arr [.obj [("type", .str "web_search")]])])
          none [] none]) :=
  (C2_tool_rejection_retry (fun _ => []) (fun _ => []) (fun _ _ _ => "sid")
    (fun n => if n = 0 then .resp ⟨500, some "m1"⟩ else .resp ⟨200, none⟩)
    {} (.obj [("messages", .arr []),
      ("responses_tools", .arr [.obj [("type", .str "web_search")]])])
    none none [] none "tok" "acct" ⟨500, some "m1"⟩ (by decide) (by decide)
    (by decide)).1 [.obj [("type", .str "web_search")]] ⟨200, none⟩ (by decide)
    (by decide) (by decide)

/-- C2 counterexample to the claim as stated: the first attempt fails with
message `"m1"`, the retry fails with message `"m2"`, and the client receives
the retry's status `503` but the **first** attempt's message `"m1"` — not the
retry's message. -/
theorem C2_counterexample :
    processChatCompletion (fun _ => []) (fun _ => []) (.ok none)
        (fun _ _ _ => "sid") (some "tok", some "acct")
        (fun n => if n = 0 then .resp ⟨500, some "m1"⟩ else .resp ⟨503, some "m2"⟩)
        {} (.obj [("messages", .arr []),
          ("responses_tools", .arr [.obj [("type", .str "web_search")]])])
        none none =
      (.error ⟨.str "m1", 503,
        .obj [("error", .obj [("message", .str "m1"),
          ("code", .str "RESPONSES_TOOLS_REJECTED")])]⟩,
       [mkUpstreamRequest "gpt-5" [] "sid" (some "base")
          [.obj [("type", .str "web_search")]] (.str "auto") false none,
        mkUpstreamRequest "gpt-5" [] "sid" (some "base") [] (.str "auto")
          false none])
    ∧ (JVal.str "m1") ≠ (JVal.str "m2") := ⟨by decide, by decide⟩

/-- Is this a dict entry with a string `type` outside the allowed web-search
set — the shape that makes the validation loop raise? -/
def isBadTool (t : JVal) : Bool :=
  match toolTypeOf t with
  | some ty => ¬(ty = "web_search" ∨ ty = "web_search_preview")
  | none => false

theorem collectExtraTools_bad : ∀ (l : List JVal),
    (∃ t ∈ l, isBadTool t = true) →
    collectExtraTools l = .error respToolsUnsupportedErr
  | [], h => by simp at h
  | t :: rest, h => by
      rcases h with ⟨u, hu, hb⟩
      unfold collectExtraTools
      rcases List.mem_cons.mp hu with rfl | hmem
      · unfold isBadTool at hb
        rcases hty : toolTypeOf u with - | ty
        · simp only [hty] at hb
          simp at hb
        · simp only [hty] at hb ⊢
          rw [if_neg (of_decide_eq_true hb)]
      · have hrest := collectExtraTools_bad rest ⟨u, hmem, hb⟩
        rcases hty : toolTypeOf t with - | ty
        · simp only [hty]
          exact hrest
        · simp only [hty]
          by_cases hok : ty = "web_search" ∨ ty = "web_search_preview"
          · rw [if_pos hok, hrest]
          · rw [if_neg hok]

/-- C3, corrected.  A `responses_tools` entry with a string `type` outside
`{web_search, web_search_preview}` guarantees that **zero** upstream POSTs are
issued, whatever else the payload holds; and provided the payload passes the
earlier message-list validation and the reasoning-parameter construction, the
request fails with the 400 error carrying code `RESPONSES_TOOL_UNSUPPORTED`.
(An invalid `messages` field makes the earlier 400 — without that code — win,
which is what the counterexample exhibits.) -/
theorem C3_unsupported_tool_rejected (convertTools : JVal → List JVal)
    (convertMessages : List JVal → List JVal)
    (buildReasoning : Except ChatError (Option JVal))
    (ensureSession : String → List JVal → Option String → String)
    (auth : Option String × Option String)
    (upstreamCall : Nat → UpstreamCallResult) (settings : SettingsM)
    (payload : JVal) (csid : Option String) (ov : Option Bool)
    (hbad : ∃ t ∈ pccResponsesToolsRaw payload, isBadTool t = true) :
    (processChatCompletion convertTools convertMessages buildReasoning
        ensureSession auth upstreamCall settings payload csid ov).2 = []
    ∧ (∀ msgs rp, pccMessagesVal payload = .arr msgs →
        buildReasoning = .ok rp →
        processChatCompletion convertTools convertMessages buildReasoning
          ensureSession auth upstreamCall settings payload csid ov =
          (.error respToolsUnsupportedErr, [])) := by
  have hstage : ∀ dws tools0, processResponsesTools payload dws tools0 =
      .error respToolsUnsupportedErr := by
    intro dws tools0
    unfold processResponsesTools
    rw [collectExtraTools_bad _ hbad]
  constructor
  · unfold processChatCompletion
    cases hmv : pccMessagesVal payload <;> simp only []
    case arr msgs =>
      cases buildReasoning with
      | error e => simp
      | ok rp => simp [hstage]
  · intro msgs rp hm hb
    subst hb
    unfold processChatCompletion
    rw [hm]
    simp only [hstage]

/-- C3 witness: a disallowed `file_search` tool type is rejected with the
tagged 400 and no upstream POST at concrete inputs. -/
theorem C3_unsupported_tool_rejected_witness :
    processChatCompletion (fun _ => []) (fun _ => []) (.ok none)
        (fun _ _ _ => "sid") (some "tok", some "acct") (fun _ => .netErr "x")
        {} (.obj [("messages", .arr []),
          ("responses_tools", .arr [.obj [("type", .str "file_search")]])])
        none none =
      (.error respToolsUnsupportedErr, []) :=
  (C3_unsupported_tool_rejected (fun _ => []) (fun _ => []) (.ok none)
    (fun _ _ _ => "sid") (some "tok", some "acct") (fun _ => .netErr "x")
    {} (.obj [("messages", .arr []),
      ("responses_tools", .arr [.obj [("type", .str "file_search")]])])
    none none (by decide)).2 [] none (by decide) rfl

/-- C3 counterexample to the claim as stated: a payload whose `messages`
field is not a list *and* whose `responses_tools` holds a disallowed type
fails with the earlier plain-400 message error — no
`RESPONSES_TOOL_UNSUPPORTED` code anywhere in its error data — though still
with zero upstream POSTs. -/
theorem C3_counterexample :
    processChatCompletion (fun _ => []) (fun _ => []) (.ok none)
        (fun _ _ _ => "sid") (some "tok", some "acct") (fun _ => .netErr "x")
        {} (.obj [("messages", .str "oops"),
          ("responses_tools", .arr [.obj [("type", .str "file_search")]])])
        none none =
      (.error messagesInvalidErr, [])
    ∧ (messagesInvalidErr.errorData.getD "error" .null).getD "code" .null =
        .null
    ∧ messagesInvalidErr.status = 400 := ⟨by decide, by decide, by decide⟩

/-! ### Claim C6 — the 32 KiB tool-size cap -/

/-- A 32800-character padding string for exhibiting the cap behaviour. -/
def c6BigStr : String := ⟨List.replicate 32800 'a'⟩

/-- A client-declared (base-channel) tool whose serialization alone exceeds
the cap. -/
def c6BigTool : JVal := .str c6BigStr

/-- The small allowed extension tool. -/
def c6WsTool : JVal := .obj [("type", .str "web_search")]

/-- A payload carrying only the small allowed extension tool. -/
def c6Payload : JVal := .obj [("messages", .arr []),
  ("responses_tools", .arr [.obj [("type", .str "web_search")]])]

theorem jsonEscapeChar_a : jsonEscapeChar 'a' = ['a'] := by decide

theorem escape_replicate (n : Nat) :
    (List.replicate n 'a').flatMap jsonEscapeChar = List.replicate n 'a' := by
  induction n with
  | zero => rfl
  | succ n ih => simp [List.replicate_succ, ih, jsonEscapeChar_a]

theorem strLen_append (a b : String) :
    (a ++ b).length = a.length + b.length := by
  cases a; cases b; simp [String.length, String.append]

theorem strLen_mk (l : List Char) : (String.mk l).length = l.length := rfl

theorem c6_big_dumps_length : (jvalDumps c6BigTool).length = 32802 := by
  show (jvalDumps (.str c6BigStr)).length = 32802
  rw [jvalDumps, strLen_append, strLen_append]
  have he : jsonEscape c6BigStr = ⟨List.replicate 32800 'a'⟩ :=
    congrArg String.mk (escape_replicate 32800)
  have hm : (String.mk (List.replicate 32800 'a')).length = 32800 := by
    rw [strLen_mk, List.length_replicate]
  rw [he, hm, show ("\"" : String).length = 1 from rfl]

theorem c6_ws_dumps_length : (jvalDumps c6WsTool).length = 22 := by decide

theorem c6_combined_over_cap :
    32768 < (jvalDumps (.arr [c6BigTool, c6WsTool])).length := by
  rw [jvalDumps, strLen_append, strLen_append]
  have hsingle : jvalDumpsList [c6WsTool] = jvalDumps c6WsTool := by
    simp [jvalDumpsList]
  have h2 : (jvalDumpsList [c6BigTool, c6WsTool]).length = 32826 := by
    have hpair : jvalDumpsList [c6BigTool, c6WsTool] =
        jvalDumps c6BigTool ++ ", " ++ jvalDumpsList [c6WsTool] := by
      simp [jvalDumpsList]
    rw [hpair, strLen_append, strLen_append, c6_big_dumps_length, hsingle,
      c6_ws_dumps_length, show (", " : String).length = 2 from rfl]
  rw [h2, show ("[" : String).length = 1 from rfl,
    show ("]" : String).length = 1 from rfl]
  norm_num

/-- C6, corrected.  The 32768-byte cap applies to the serialized **extension
tool channel** (`responses_tools` plus the injected default) alone, not to the
combined tool payload: a stage error (such as the cap) propagates to the
client with zero upstream POSTs; the extension channel over the cap is
rejected with 400 `RESPONSES_TOOLS_TOO_LARGE`; and at or under the cap no
size-based rejection occurs — the stage succeeds, whatever the size of the
client's base tools. -/
theorem C6_tools_size_cap (convertTools : JVal → List JVal)
    (convertMessages : List JVal → List JVal)
    (ensureSession : String → List JVal → Option String → String)
    (auth : Option String × Option String)
    (upstreamCall : Nat → UpstreamCallResult) (settings : SettingsM)
    (payload : JVal) (csid : Option String) (ov : Option Bool)
    (msgs : List JVal) (rp : Option JVal)
    (hm : pccMessagesVal payload = .arr msgs) :
    (∀ e, processResponsesTools payload settings.defaultWebSearch
        (convertTools (payload.getD "tools" .null)) = .error e →
      processChatCompletion convertTools convertMessages (.ok rp) ensureSession
        auth upstreamCall settings payload csid ov = (.error e, []))
    ∧ (∀ dws tools0 extras0,
        collectExtraTools (pccResponsesToolsRaw payload) = .ok extras0 →
        pccExtras payload dws extras0 ≠ [] →
        32768 < (jvalDumps (.arr (pccExtras payload dws extras0))).length →
        processResponsesTools payload dws tools0 = .error respToolsTooLargeErr)
    ∧ (∀ dws tools0 extras0,
        collectExtraTools (pccResponsesToolsRaw payload) = .ok extras0 →
        (jvalDumps (.arr (pccExtras payload dws extras0))).length ≤ 32768 →
        processResponsesTools payload dws tools0 =
          (if pccExtras payload dws extras0 = [] then .ok (tools0, false)
           else .ok (tools0 ++ pccExtras payload dws extras0, true))) := by
  refine ⟨?_, ?_, ?_⟩
  · intro e hstage
    unfold processChatCompletion
    rw [hm]
    simp only [hstage]
  · intro dws tools0 extras0 hc hne hover
    unfold processResponsesTools
    rw [hc]
    simp only []
    rw [if_neg hne, if_pos hover]
  · intro dws tools0 extras0 hc hle
    unfold processResponsesTools
    rw [hc]
    simp only []
    by_cases hempty : pccExtras payload dws extras0 = []
    · rw [if_pos hempty, if_pos hempty]
    · rw [if_neg hempty, if_neg hempty, if_neg (Nat.not_lt.mpr hle)]

/-- C6 witness: the stage error propagation and the at-or-under-cap success at
concrete inputs. -/
theorem C6_tools_size_cap_witness :
    processChatCompletion (fun _ => []) (fun _ => []) (.ok none)
        (fun _ _ _ => "sid") (some "tok", some "acct") (fun _ => .netErr "x")
        {} (.obj [("messages", .arr []),
          ("responses_tools", .arr [.obj [("type", .str "file_search")]])])
        none none = (.error respToolsUnsupportedErr, [])
    ∧ processResponsesTools (.obj [("messages", .arr []),
        ("responses_tools", .arr [.obj [("type", .str "file_search")]])])
        false [] = .error respToolsUnsupportedErr
    ∧ processResponsesTools c6Payload false [] =
        (if pccExtras c6Payload false [c6WsTool] = [] then .ok ([], false)
         else .ok ([] ++ pccExtras c6Payload false [c6WsTool], true)) :=
  ⟨(C6_tools_size_cap (fun _ => []) (fun _ => []) (fun _ _ _ => "sid")
      (some "tok", some "acct") (fun _ => .netErr "x") {}
      (.obj [("messages", .arr []),
        ("responses_tools", .arr [.obj [("type", .str "file_search")]])])
      none none [] none (by decide)).1 respToolsUnsupportedErr (by decide),
   by decide,
   (C6_tools_size_cap (fun _ => []) (fun _ => []) (fun _ _ _ => "sid")
      (some "tok", some "acct") (fun _ => .netErr "x") {} c6Payload
      none none [] none (by decide)).2.2 false [] [c6WsTool] (by decide)
      (by decide)⟩

/-- C6 counterexample to the claim as stated: a combined tool payload far over
32 KiB — one huge client-declared base tool next to a tiny extension channel —
passes the tool stage with **no** size-based rejection, because only the
extension channel is measured. -/
theorem C6_counterexample :
    processResponsesTools c6Payload false [c6BigTool] =
      .ok ([c6BigTool, c6WsTool], true)
    ∧ 32768 < (jvalDumps (.arr [c6BigTool, c6WsTool])).length :=
  ⟨rfl, c6_combined_over_cap⟩
